import Mathlib

/-!
Verification development for the krishna_royal_club customization layer.

The Python source (api.py, sales_order.py, guest_onboarding.py) is embedded
shallowly: the document store is a list of records, lifecycle hooks and HTTP
endpoints become pure functions threading that store, and the framework's
transaction layer is a pair of worlds (committed, current) with explicit
commit and rollback.  Python string truthiness (None and "" are falsy) is
modelled by pyTruthy on Option String.
-/

namespace KRC

/-! ### Python-style helpers -/

/-- Python truthiness for an optional string field: None and "" are falsy. -/
def pyTruthy : Option String → Bool
  | none => false
  | some s => !(s == "")

/-- Python `a or b` on two optional string values. -/
def pyOr (a b : Option String) : Option String :=
  if pyTruthy a then a else b

/-- Python whitespace as stripped by `str.strip()`. -/
def isWsC (c : Char) : Bool :=
  c == ' ' || c == Char.ofNat 9 || c == Char.ofNat 10 || c == Char.ofNat 13
    || c == Char.ofNat 11 || c == Char.ofNat 12

/-- ASCII lower-casing of one character. -/
def lowerChar (c : Char) : Char :=
  if 65 ≤ c.toNat ∧ c.toNat ≤ 90 then Char.ofNat (c.toNat + 32) else c

/-- Python `str.strip()`. -/
def pyStrip (s : String) : String :=
  String.mk (((s.data.dropWhile isWsC).reverse.dropWhile isWsC).reverse)

/-- Python `str.lower()`. -/
def pyLower (s : String) : String :=
  String.mk (s.data.map lowerChar)

/-- `email.strip().lower()` normalization used by the endpoints. -/
def normalizeEmail (s : String) : String :=
  pyLower (pyStrip s)

/-- Split a character list on a separator (like `str.split(sep)`): the
separator is dropped and empty pieces are kept. -/
def splitOnChar (sep : Char) : List Char → List (List Char)
  | [] => [[]]
  | c :: rest =>
      if c == sep then [] :: splitOnChar sep rest
      else
        match splitOnChar sep rest with
        | [] => [[c]]
        | h :: t => (c :: h) :: t

/-- Python `str.split()` with no argument: split on whitespace runs,
dropping empty pieces.  The first argument accumulates the current word in
reverse. -/
def pySplitWsAux : List Char → List Char → List String
  | cur, [] => if cur.isEmpty then [] else [String.mk cur.reverse]
  | cur, c :: rest =>
      if isWsC c then
        if cur.isEmpty then pySplitWsAux [] rest
        else String.mk cur.reverse :: pySplitWsAux [] rest
      else pySplitWsAux (c :: cur) rest

/-- Python `str.split()`. -/
def pySplitWs (s : String) : List String :=
  pySplitWsAux [] s.data

/-- Character class of the local part of the email regex
`[a-zA-Z0-9._%+-]`. -/
def isLocalChar (c : Char) : Bool :=
  c.isAlphanum || c == '.' || c == '_' || c == '%' || c == '+' || c == '-'

/-- Character class of the domain part of the email regex `[a-zA-Z0-9.-]`. -/
def isDomainChar (c : Char) : Bool :=
  c.isAlphanum || c == '.' || c == '-'

/-- Match of the domain side of the regex against `[a-zA-Z0-9.-]+\.[a-zA-Z]\x7b2,\x7d$`:
some trailing all-alpha tld of length at least two, preceded by a dot,
preceded by a non-empty run of domain characters.  Because the tld may not
contain a dot, the only viable split is at the last dot. -/
def domainMatches (cs : List Char) : Bool :=
  let tldRev := cs.reverse.takeWhile (fun c => c.isAlpha)
  match cs.reverse.drop tldRev.length with
  | [] => false
  | d :: midRev =>
      d == '.' && decide (2 ≤ tldRev.length) && decide (0 < midRev.length)
        && midRev.all isDomainChar

/-- The email pattern `^[a-zA-Z0-9._%+-]+@[a-zA-Z0-9.-]+\.[a-zA-Z]\x7b2,\x7d$`
used by create_customer and forgot_password.  Both character classes exclude
the at sign, so a match forces exactly one at sign. -/
def emailValid (s : String) : Bool :=
  match splitOnChar '@' s.data with
  | [lpart, domain] =>
      decide (0 < lpart.length) && lpart.all isLocalChar
        && domainMatches domain
  | _ => false

/-- Numeric value of a digit run. -/
def digitsToNat (cs : List Char) : Nat :=
  cs.foldl (fun a c => a * 10 + (c.toNat - 48)) 0

/-- `datetime.strptime(value, "%H:%M:%S")` reduced to seconds since midnight;
none when the string does not parse. -/
def parseTimeSec (s : String) : Option Nat :=
  match splitOnChar ':' s.data with
  | [h, m, sec] =>
      if h.all Char.isDigit && m.all Char.isDigit && sec.all Char.isDigit
          && decide (0 < h.length) && decide (h.length ≤ 2)
          && decide (0 < m.length) && decide (m.length ≤ 2)
          && decide (0 < sec.length) && decide (sec.length ≤ 2)
          && decide (digitsToNat h < 24) && decide (digitsToNat m < 60)
          && decide (digitsToNat sec < 60) then
        some (digitsToNat h * 3600 + digitsToNat m * 60 + digitsToNat sec)
      else none
  | _ => none

/-! ### Calendar dates

`frappe.utils.getdate` yields date objects; `date_diff` subtracts their day
ordinals.  Dates are modelled by Gregorian (year, month, day) triples with
the standard civil-to-day-number conversion. -/

structure Date where
  year : Nat
  month : Nat
  day : Nat
deriving DecidableEq, Repr

/-- Day number of a civil date (days since 1970-01-01, Gregorian). -/
def daysFromCivil (dt : Date) : Int :=
  let y := if dt.month ≤ 2 then dt.year - 1 else dt.year
  let era := y / 400
  let yoe := y - era * 400
  let mp := (dt.month + 9) % 12
  let doy := (153 * mp + 2) / 5 + dt.day - 1
  let doe := yoe * 365 + yoe / 4 - yoe / 100 + doy
  ((era * 146097 + doe : Nat) : Int) - 719468

/-- `frappe.utils.date_diff(a, b)`: day ordinal of a minus day ordinal of b. -/
def dateDiff (a b : Date) : Int :=
  daysFromCivil a - daysFromCivil b

/-- Two-digit zero padding. -/
def pad2 (n : Nat) : String :=
  if n < 10 then "0" ++ toString n else toString n

/-- `frappe.utils.formatdate(d, "dd-MM-yyyy")`. -/
def formatDMY (d : Date) : String :=
  pad2 d.day ++ "-" ++ pad2 d.month ++ "-" ++ toString d.year

/-! ### Sales Order records and the single-active-order guard
(sales_order.py, ensure_single_sales_order) -/

/-- One Sales Order line item. -/
structure SOItem where
  item_code : String
  item_name : String
  description : String
  qty : Int
  rate : Nat
deriving DecidableEq, Repr

/-- A stored Sales Order row.  `customer` is nullable in the table; docstatus
is 0 draft, 1 submitted, 2 cancelled.  `modified` stands for the audit
timestamp that `db_set(..., update_modified=False)` leaves untouched. -/
structure Order where
  name : String
  customer : Option String
  docstatus : Nat
  custom_guest_onboarding_id : Option String
  modified : Nat
  items : List SOItem
deriving DecidableEq, Repr

/-- The error thrown by ensure_single_sales_order: the message names the
customer and the conflicting order. -/
structure DupActiveOrder where
  customer : String
  conflicting : String
deriving DecidableEq, Repr

/-- ensure_single_sales_order (sales_order.py lines 5-35): if the document
carries a truthy customer, query for any other Sales Order of that customer
with docstatus < 2, excluding the current record by name (LIMIT 1), and
throw naming the conflicting order when one is found. -/
def ensure_single_sales_order (store : List Order) (doc : Order) :
    Except DupActiveOrder Unit :=
  if !pyTruthy doc.customer then .ok ()
  else
    let c := doc.customer.getD ""
    match store.find? (fun o =>
        o.customer == some c && decide (o.docstatus < 2)
          && !(o.name == doc.name)) with
    | none => .ok ()
    | some conflict => .error ⟨c, conflict.name⟩

/-- A guarded insert: the store rejects a duplicate primary name, otherwise
the before-insert guard runs and, when it passes, the row is appended.  A
rejected operation leaves the store unchanged. -/
def applyInsert (store : List Order) (doc : Order) : List Order :=
  if store.any (fun o => o.name == doc.name) then store
  else
    match ensure_single_sales_order store doc with
    | .ok _ => store ++ [doc]
    | .error _ => store

/-- A guarded update of the row whose name matches the document: the
before-update guard runs against the current store and, when it passes, the
row is replaced in place. -/
def applyUpdate (store : List Order) (doc : Order) : List Order :=
  if store.any (fun o => o.name == doc.name) then
    match ensure_single_sales_order store doc with
    | .ok _ => store.map (fun o => if o.name == doc.name then doc else o)
    | .error _ => store
  else store

/-- One guarded write against the Sales Order table. -/
inductive SOOp where
  | insert (doc : Order)
  | update (doc : Order)
deriving DecidableEq, Repr

/-- Apply a sequence of guarded writes. -/
def applyOps : List SOOp → List Order → List Order
  | [], store => store
  | .insert d :: rest, store => applyOps rest (applyInsert store d)
  | .update d :: rest, store => applyOps rest (applyUpdate store d)

/-- The row counts as an active order of customer c. -/
def activeForB (c : String) (o : Order) : Bool :=
  o.customer == some c && decide (o.docstatus < 2)

/-- Invariant: order names are unique, and for every non-empty customer all
active (docstatus < 2) orders of that customer share one name — i.e. at most
one non-cancelled order per customer exists. -/
def SingleActiveInv (store : List Order) : Prop :=
  (store.map Order.name).Nodup ∧
    ∀ c : String, c ≠ "" →
      ∀ o1 ∈ store, ∀ o2 ∈ store,
        activeForB c o1 = true → activeForB c o2 = true → o1.name = o2.name

theorem ensure_ok_iff (store : List Order) (doc : Order) (c : String)
    (hc : doc.customer = some c) (hne : c ≠ "") :
    ensure_single_sales_order store doc = .ok () ↔
      ∀ o ∈ store,
        ¬(o.customer = some c ∧ o.docstatus < 2 ∧ o.name ≠ doc.name) := by
  unfold ensure_single_sales_order
  rw [hc]
  simp only [pyTruthy, Bool.not_eq_true']
  rw [if_neg (by simp [hne])]
  simp only [Option.getD_some]
  rcases hh : store.find? (fun o =>
      o.customer == some c && decide (o.docstatus < 2)
        && !(o.name == doc.name)) with _ | conflict <;> rw [hh]
  · rw [List.find?_eq_none] at hh
    simp only [Bool.and_eq_true, beq_iff_eq, decide_eq_true_eq,
      Bool.not_eq_true', beq_eq_false_iff_ne, ne_eq, not_and] at hh
    constructor
    · intro _ o ho hcontra
      exact (hh o ho ⟨hcontra.1, hcontra.2.1⟩) hcontra.2.2
    · intro _; rfl
  · constructor
    · intro habs; simp at habs
    · intro hnone
      exfalso
      have hp := List.find?_some hh
      have hmem := List.mem_of_find?_eq_some hh
      simp only [Bool.and_eq_true, beq_iff_eq, decide_eq_true_eq,
        Bool.not_eq_true', beq_eq_false_iff_ne, ne_eq] at hp
      exact hnone conflict hmem ⟨hp.1.1, hp.1.2, hp.2⟩

theorem ensure_err_of_conflict (store : List Order) (doc : Order) (c : String)
    (other : Order) (hc : doc.customer = some c) (hne : c ≠ "")
    (ho : other ∈ store) (hoc : other.customer = some c)
    (hod : other.docstatus < 2) (hon : other.name ≠ doc.name) :
    ∃ e, ensure_single_sales_order store doc = .error e ∧ e.customer = c ∧
      ∃ o ∈ store, o.customer = some c ∧ o.docstatus < 2 ∧
        o.name ≠ doc.name ∧ e.conflicting = o.name := by
  unfold ensure_single_sales_order
  rw [hc]
  simp only [pyTruthy, Bool.not_eq_true']
  rw [if_neg (by simp [hne])]
  simp only [Option.getD_some]
  rcases hh : store.find? (fun o =>
      o.customer == some c && decide (o.docstatus < 2)
        && !(o.name == doc.name)) with _ | conflict <;> rw [hh]
  · exfalso
    rw [List.find?_eq_none] at hh
    exact hh other ho (by simp [hoc, hod, hon])
  · have hp := List.find?_some hh
    have hmem := List.mem_of_find?_eq_some hh
    simp only [Bool.and_eq_true, beq_iff_eq, decide_eq_true_eq,
      Bool.not_eq_true', beq_eq_false_iff_ne, ne_eq] at hp
    exact ⟨⟨c, conflict.name⟩, rfl, rfl, conflict, hmem,
      hp.1.1, hp.1.2, hp.2, rfl⟩

theorem activeForB_eq_true {c : String} {o : Order} :
    activeForB c o = true ↔ o.customer = some c ∧ o.docstatus < 2 := by
  simp [activeForB]

theorem inv_applyInsert (store : List Order) (d : Order)
    (h : SingleActiveInv store) : SingleActiveInv (applyInsert store d) := by
  unfold applyInsert
  rcases hname : store.any (fun o => o.name == d.name) with _ | _
  · simp only [Bool.false_eq_true, if_false]
    have hfresh : ∀ o ∈ store, o.name ≠ d.name := by
      intro o ho
      have := (List.any_eq_false).mp hname o ho
      simpa using this
    rcases he : ensure_single_sales_order store d with e | u
    · exact h
    · constructor
      · rw [List.map_append]
        rw [List.nodup_append]
        refine ⟨h.1, by simp, ?_⟩
        intro a ha hb
        simp only [List.map_cons, List.map_nil, List.mem_singleton] at hb
        rw [List.mem_map] at ha
        rcases ha with ⟨o, ho, rfl⟩
        exact hfresh o ho hb
      · intro c hc o1 h1 o2 h2 ha1 ha2
        rw [List.mem_append, List.mem_singleton] at h1 h2
        rcases h1 with h1 | h1e <;> rcases h2 with h2 | h2e
        · exact h.2 c hc o1 h1 o2 h2 ha1 ha2
        · exfalso
          rw [h2e] at ha2
          rcases activeForB_eq_true.mp ha2 with ⟨hdc, hdd⟩
          have hok := (ensure_ok_iff store d c hdc hc).mp (by cases u; exact he)
          rcases activeForB_eq_true.mp ha1 with ⟨h1c, h1d⟩
          exact hok o1 h1 ⟨h1c, h1d, hfresh o1 h1⟩
        · exfalso
          rw [h1e] at ha1
          rcases activeForB_eq_true.mp ha1 with ⟨hdc, hdd⟩
          have hok := (ensure_ok_iff store d c hdc hc).mp (by cases u; exact he)
          rcases activeForB_eq_true.mp ha2 with ⟨h2c, h2d⟩
          exact hok o2 h2 ⟨h2c, h2d, hfresh o2 h2⟩
        · rw [h1e, h2e]
  · simp only [if_true]
    exact h

theorem inv_applyUpdate (store : List Order) (d : Order)
    (h : SingleActiveInv store) : SingleActiveInv (applyUpdate store d) := by
  unfold applyUpdate
  rcases hname : store.any (fun o => o.name == d.name) with _ | _
  · simp only [Bool.false_eq_true, if_false]
    exact h
  · simp only [if_true]
    rcases he : ensure_single_sales_order store d with e | u
    · exact h
    · have hnames : (store.map (fun o =>
          if o.name == d.name then d else o)).map Order.name
            = store.map Order.name := by
        rw [List.map_map]
        apply List.map_congr_left
        intro o _
        by_cases ho : o.name = d.name
        · simp [ho]
        · simp [ho]
      constructor
      · rw [hnames]; exact h.1
      · intro c hc o1 h1 o2 h2 ha1 ha2
        rw [List.mem_map] at h1 h2
        rcases h1 with ⟨p1, hp1, rfl⟩
        rcases h2 with ⟨p2, hp2, rfl⟩
        by_cases e1 : p1.name = d.name <;> by_cases e2 : p2.name = d.name
        · simp [e1, e2]
        · simp only [e1, beq_self_eq_true, if_true] at ha1 ⊢
          simp only [e2, beq_iff_eq, if_neg e2] at ha2 ⊢
          exfalso
          rcases activeForB_eq_true.mp ha1 with ⟨hdc, hdd⟩
          have hok := (ensure_ok_iff store d c hdc hc).mp (by cases u; exact he)
          rcases activeForB_eq_true.mp ha2 with ⟨h2c, h2d⟩
          exact hok p2 hp2 ⟨h2c, h2d, e2⟩
        · simp only [e2, beq_self_eq_true, if_true] at ha2 ⊢
          simp only [e1, beq_iff_eq, if_neg e1] at ha1 ⊢
          exfalso
          rcases activeForB_eq_true.mp ha2 with ⟨hdc, hdd⟩
          have hok := (ensure_ok_iff store d c hdc hc).mp (by cases u; exact he)
          rcases activeForB_eq_true.mp ha1 with ⟨h1c, h1d⟩
          exact hok p1 hp1 ⟨h1c, h1d, e1⟩
        · simp only [e1, e2, beq_iff_eq, if_neg e1, if_neg e2] at ha1 ha2 ⊢
          exact h.2 c hc p1 hp1 p2 hp2 ha1 ha2

theorem inv_applyOps (ops : List SOOp) (store : List Order)
    (h : SingleActiveInv store) : SingleActiveInv (applyOps ops store) := by
  induction ops generalizing store with
  | nil => exact h
  | cons op rest ih =>
    cases op with
    | insert d => exact ih _ (inv_applyInsert store d h)
    | update d => exact ih _ (inv_applyUpdate store d h)

/-- C1: a Sales Order write that carries a non-empty customer fails with the
duplicate-active-order error, naming a conflicting order, whenever another
order of the same customer with docstatus < 2 (and a different name) exists;
consequently the at-most-one-active-order-per-customer invariant is
preserved by every sequence of guarded inserts and updates. -/
theorem c1_duplicate_guard_and_invariant :
    (∀ (store : List Order) (doc : Order) (c : String) (other : Order),
      doc.customer = some c → c ≠ "" → other ∈ store →
      other.customer = some c → other.docstatus < 2 → other.name ≠ doc.name →
      ∃ e, ensure_single_sales_order store doc = .error e ∧ e.customer = c ∧
        ∃ o ∈ store, o.customer = some c ∧ o.docstatus < 2 ∧
          o.name ≠ doc.name ∧ e.conflicting = o.name) ∧
    (∀ (ops : List SOOp) (store : List Order),
      SingleActiveInv store → SingleActiveInv (applyOps ops store)) := by
  constructor
  · intro store doc c other hc hne ho hoc hod hon
    exact ensure_err_of_conflict store doc c other hc hne ho hoc hod hon
  · intro ops store h
    exact inv_applyOps ops store h

/-- Concrete order rows used by the C1 and C10 witnesses. -/
def demoOrderA : Order :=
  { name := "SAL-ORD-0001", customer := some "CUST-A", docstatus := 0,
    custom_guest_onboarding_id := none, modified := 0, items := [] }

def demoOrderB : Order :=
  { name := "SAL-ORD-0002", customer := some "CUST-A", docstatus := 0,
    custom_guest_onboarding_id := none, modified := 0, items := [] }

def demoOrderC : Order :=
  { name := "SAL-ORD-0003", customer := some "CUST-C", docstatus := 0,
    custom_guest_onboarding_id := none, modified := 0, items := [] }

theorem c1_witness :
    (∃ e, ensure_single_sales_order [demoOrderA] demoOrderB = .error e ∧
      e.customer = "CUST-A" ∧
      ∃ o ∈ [demoOrderA], o.customer = some "CUST-A" ∧ o.docstatus < 2 ∧
        o.name ≠ demoOrderB.name ∧ e.conflicting = o.name) ∧
    SingleActiveInv
      (applyOps [SOOp.insert demoOrderA, SOOp.insert demoOrderB,
        SOOp.insert demoOrderC] []) :=
  ⟨c1_duplicate_guard_and_invariant.1 [demoOrderA] demoOrderB "CUST-A"
      demoOrderA rfl (by decide) (by simp) rfl (by decide) (by decide),
    c1_duplicate_guard_and_invariant.2 _ []
      ⟨by simp, by intro c hc o1 h1; exact absurd h1 (by simp)⟩⟩

/-- C10: when the document's customer field is unset or empty, the guard
returns without error whatever the store holds, and a sequence of inserts of
fresh customer-less orders all succeed, so any number of non-cancelled
customer-less Sales Orders coexist. -/
theorem c10_blank_customer_guard :
    (∀ (store : List Order) (doc : Order), pyTruthy doc.customer = false →
      ensure_single_sales_order store doc = .ok ()) ∧
    (∀ (docs : List Order) (store : List Order),
      (∀ d ∈ docs, pyTruthy d.customer = false) →
      (docs.map Order.name).Nodup →
      (∀ d ∈ docs, ∀ o ∈ store, o.name ≠ d.name) →
      applyOps (docs.map SOOp.insert) store = store ++ docs) := by
  have hok : ∀ (store : List Order) (doc : Order),
      pyTruthy doc.customer = false →
      ensure_single_sales_order store doc = .ok () := by
    intro store doc hblank
    unfold ensure_single_sales_order
    rw [hblank]
    rfl
  refine ⟨hok, ?_⟩
  intro docs
  induction docs with
  | nil => intro store _ _ _; simp [applyOps]
  | cons d ds ih =>
    intro store hblank hnodup hfresh
    simp only [List.map_cons]
    show applyOps (SOOp.insert d :: ds.map SOOp.insert) store
      = store ++ d :: ds
    have hins : applyInsert store d = store ++ [d] := by
      unfold applyInsert
      have hany : store.any (fun o => o.name == d.name) = false := by
        rw [List.any_eq_false]
        intro o ho
        simpa using hfresh d (by simp) o ho
      rw [hany]
      simp only [Bool.false_eq_true, if_false]
      rw [hok store d (hblank d (by simp))]
    show applyOps (ds.map SOOp.insert) (applyInsert store d) = store ++ d :: ds
    rw [hins]
    have hnodup' : (ds.map Order.name).Nodup := by
      simp only [List.map_cons, List.nodup_cons] at hnodup
      exact hnodup.2
    have hdnotin : d.name ∉ ds.map Order.name := by
      simp only [List.map_cons, List.nodup_cons] at hnodup
      exact hnodup.1
    have := ih (store ++ [d])
      (fun x hx => hblank x (by simp [hx]))
      hnodup'
      (by
        intro d' hd' o ho
        rw [List.mem_append, List.mem_singleton] at ho
        rcases ho with ho | rfl
        · exact hfresh d' (by simp [hd']) o ho
        · intro hcontra
          exact hdnotin (by rw [hcontra]; exact List.mem_map_of_mem _ hd'))
    rw [this]
    simp

def demoBlankA : Order :=
  { name := "SAL-ORD-0101", customer := none, docstatus := 0,
    custom_guest_onboarding_id := none, modified := 0, items := [] }

def demoBlankB : Order :=
  { name := "SAL-ORD-0102", customer := some "", docstatus := 1,
    custom_guest_onboarding_id := none, modified := 0, items := [] }

def demoBlankC : Order :=
  { name := "SAL-ORD-0103", customer := none, docstatus := 0,
    custom_guest_onboarding_id := none, modified := 0, items := [] }

/-! ### Project Template creation on Sales Order submit
(sales_order.py, create_project_template) -/

/-- One row of a Project Template's task table. -/
structure TemplateTask where
  task : String
  subject : String
deriving DecidableEq, Repr

/-- A Project Template document. -/
structure ProjectTemplate where
  name : String
  tasks : List TemplateTask
deriving DecidableEq, Repr

/-- A standalone Task document. -/
structure TaskDoc where
  name : String
  subject : String
  description : String
deriving DecidableEq, Repr

/-- The world the submit hook writes to: Project Templates, Tasks, a naming
counter for freshly inserted Tasks, and the informational notices emitted by
msgprint. -/
structure PTWorld where
  templates : List ProjectTemplate
  tasks : List TaskDoc
  taskCounter : Nat
  notices : List String
deriving DecidableEq, Repr

/-- Task subject fallback chain of the source:
`(item_name or None) or (description if description else None) or item_code`
with Python's empty-string falsiness. -/
def subjectOf (it : SOItem) : String :=
  if it.item_name ≠ "" then it.item_name
  else if it.description ≠ "" then it.description
  else it.item_code

/-- The per-item loop: insert one Task per line item (description falls back
to the subject) and collect the template rows in line-item order.  Inserted
Tasks are named from the running counter. -/
def buildTasks (counter : Nat) : List SOItem → List TaskDoc × List TemplateTask
  | [] => ([], [])
  | it :: rest =>
      let subj := subjectOf it
      let tname := "TASK-" ++ toString counter
      let td : TaskDoc :=
        { name := tname, subject := subj,
          description := if it.description ≠ "" then it.description else subj }
      let (ts, rows) := buildTasks (counter + 1) rest
      (td :: ts, { task := tname, subject := subj } :: rows)

/-- The msgprint text emitted when the deterministically named template
already exists. -/
def ptExistsMsg (template_name : String) : String :=
  "Project Template <b>" ++ template_name ++ "</b> already exists."

/-- create_project_template (sales_order.py lines 37-79), hooked on Sales
Order on_submit: only acts on docstatus 1; skips with a notice when the
deterministically named template already exists; skips with a notice when
the order has no items; otherwise inserts one Task per line item and a
Project Template aggregating them in order. -/
def create_project_template (w : PTWorld) (doc : Order) : PTWorld :=
  if doc.docstatus ≠ 1 then w
  else
    let template_name := "Template-" ++ doc.name
    if w.templates.any (fun t => t.name == template_name) then
      { w with notices := w.notices ++ [ptExistsMsg template_name] }
    else if doc.items.isEmpty then
      { w with notices := w.notices ++
          ["Sales Order has no items to create project tasks from."] }
    else
      let (ts, rows) := buildTasks w.taskCounter doc.items
      { w with
          tasks := w.tasks ++ ts,
          taskCounter := w.taskCounter + doc.items.length,
          templates := w.templates ++ [{ name := template_name, tasks := rows }] }

theorem buildTasks_spec (counter : Nat) (items : List SOItem) :
    (buildTasks counter items).1.map TaskDoc.subject = items.map subjectOf ∧
    (buildTasks counter items).2.map TemplateTask.subject
      = items.map subjectOf ∧
    (buildTasks counter items).2.map TemplateTask.task
      = (buildTasks counter items).1.map TaskDoc.name ∧
    (buildTasks counter items).1.length = items.length := by
  induction items generalizing counter with
  | nil => simp [buildTasks]
  | cons it rest ih =>
    have hrec := ih (counter + 1)
    simp only [buildTasks, List.map_cons, List.length_cons]
    refine ⟨?_, ?_, ?_, ?_⟩
    · exact congrArg _ hrec.1
    · exact congrArg _ hrec.2.1
    · exact congrArg _ hrec.2.2.1
    · exact congrArg _ hrec.2.2.2

theorem cpt_skip_not_submitted (w : PTWorld) (doc : Order)
    (hds : doc.docstatus ≠ 1) : create_project_template w doc = w := by
  unfold create_project_template
  rw [if_pos hds]

theorem cpt_skip_exists (w : PTWorld) (doc : Order) (hds : doc.docstatus = 1)
    (hsome : w.templates.any
      (fun t => t.name == "Template-" ++ doc.name) = true) :
    create_project_template w doc
      = { w with notices := w.notices
          ++ [ptExistsMsg ("Template-" ++ doc.name)] } := by
  unfold create_project_template
  rw [if_neg (by simp [hds])]
  simp [hsome]

theorem cpt_skip_noitems (w : PTWorld) (doc : Order) (hds : doc.docstatus = 1)
    (hnone : w.templates.any
      (fun t => t.name == "Template-" ++ doc.name) = false)
    (hitems : doc.items = []) :
    create_project_template w doc
      = { w with notices := w.notices
          ++ ["Sales Order has no items to create project tasks from."] } := by
  unfold create_project_template
  rw [if_neg (by simp [hds])]
  simp only [hnone, Bool.false_eq_true, if_false]
  rw [if_pos (by simp [hitems])]

theorem cpt_creates (w : PTWorld) (doc : Order) (hds : doc.docstatus = 1)
    (hitems : doc.items ≠ [])
    (hnone : w.templates.any
      (fun t => t.name == "Template-" ++ doc.name) = false) :
    create_project_template w doc = { w with
      tasks := w.tasks ++ (buildTasks w.taskCounter doc.items).1,
      taskCounter := w.taskCounter + doc.items.length,
      templates := w.templates ++ [ProjectTemplate.mk
        ("Template-" ++ doc.name) (buildTasks w.taskCounter doc.items).2] }
    := by
  unfold create_project_template
  rw [if_neg (by simp [hds])]
  simp only [hnone, Bool.false_eq_true, if_false]
  rw [if_neg (by simpa [List.isEmpty_iff] using hitems)]

/-- C3: on submit of an order with at least one line item and no existing
template of the deterministic name, exactly one Project Template named
"Template-" + order name is appended, whose rows mirror the line items in
order (subject = item name, falling back to description, falling back to
item code), with one Task inserted per line item; when the template already
exists only a notice is appended; and running the hook twice leaves the same
templates and tasks as running it once. -/
theorem c3_project_template :
    (∀ (w : PTWorld) (doc : Order), doc.docstatus = 1 →
      doc.items ≠ [] →
      w.templates.any (fun t => t.name == "Template-" ++ doc.name) = false →
      ∃ tpl,
        (create_project_template w doc).templates = w.templates ++ [tpl] ∧
        tpl.name = "Template-" ++ doc.name ∧
        tpl.tasks.map TemplateTask.subject = doc.items.map subjectOf ∧
        (create_project_template w doc).tasks.map TaskDoc.subject
          = w.tasks.map TaskDoc.subject ++ doc.items.map subjectOf ∧
        (create_project_template w doc).tasks.length
          = w.tasks.length + doc.items.length ∧
        tpl.tasks.map TemplateTask.task
          = ((create_project_template w doc).tasks.drop
              w.tasks.length).map TaskDoc.name) ∧
    (∀ (w : PTWorld) (doc : Order), doc.docstatus = 1 →
      w.templates.any (fun t => t.name == "Template-" ++ doc.name) = true →
      create_project_template w doc
        = { w with notices := w.notices ++
            [ptExistsMsg ("Template-" ++ doc.name)] }) ∧
    (∀ (w : PTWorld) (doc : Order),
      (create_project_template (create_project_template w doc) doc).templates
        = (create_project_template w doc).templates ∧
      (create_project_template (create_project_template w doc) doc).tasks
        = (create_project_template w doc).tasks) := by
  refine ⟨?_, ?_, ?_⟩
  · intro w doc hds hitems hnone
    have hb := buildTasks_spec w.taskCounter doc.items
    refine ⟨ProjectTemplate.mk ("Template-" ++ doc.name)
        (buildTasks w.taskCounter doc.items).2, ?_, rfl, hb.2.1,
        ?_, ?_, ?_⟩
    · rw [cpt_creates w doc hds hitems hnone]
    · rw [cpt_creates w doc hds hitems hnone]
      simp only [List.map_append]
      rw [hb.1]
    · rw [cpt_creates w doc hds hitems hnone]
      simp only [List.length_append]
      rw [hb.2.2.2]
    · rw [cpt_creates w doc hds hitems hnone]
      rw [List.drop_left]
      exact hb.2.2.1
  · intro w doc hds hsome
    exact cpt_skip_exists w doc hds hsome
  · intro w doc
    by_cases hds : doc.docstatus = 1
    · by_cases hex : w.templates.any
          (fun t => t.name == "Template-" ++ doc.name) = true
      · have h1 := cpt_skip_exists w doc hds hex
        have h2 := cpt_skip_exists (create_project_template w doc) doc hds
          (by rw [h1]; exact hex)
        rw [h2]
        exact ⟨rfl, rfl⟩
      · rw [Bool.not_eq_true] at hex
        by_cases hitems : doc.items = []
        · have h1 := cpt_skip_noitems w doc hds hex hitems
          have h2 := cpt_skip_noitems (create_project_template w doc) doc hds
            (by rw [h1]; exact hex) hitems
          rw [h2]
          exact ⟨rfl, rfl⟩
        · have h1 := cpt_creates w doc hds hitems hex
          have hex2 : (create_project_template w doc).templates.any
              (fun t => t.name == "Template-" ++ doc.name) = true := by
            rw [h1]
            simp
          have h2 := cpt_skip_exists (create_project_template w doc) doc hds
            hex2
          rw [h2]
          exact ⟨rfl, rfl⟩
    · rw [cpt_skip_not_submitted w doc hds,
        cpt_skip_not_submitted w doc hds]
      exact ⟨rfl, rfl⟩

/-- Concrete submitted order used by the C3 witness. -/
def demoSubmitOrder : Order :=
  { name := "SAL-ORD-0201", customer := some "CUST-A", docstatus := 1,
    custom_guest_onboarding_id := none, modified := 0,
    items := [
      { item_code := "ROOM", item_name := "Double Room",
        description := "", qty := 3, rate := 100 },
      { item_code := "SPA", item_name := "",
        description := "Spa visit", qty := 3, rate := 40 },
      { item_code := "GYM", item_name := "",
        description := "", qty := 3, rate := 10 }] }

def demoPTWorld : PTWorld :=
  { templates := [], tasks := [], taskCounter := 0, notices := [] }

theorem c3_witness :
    (∃ tpl,
      (create_project_template demoPTWorld demoSubmitOrder).templates
        = demoPTWorld.templates ++ [tpl] ∧
      tpl.name = "Template-" ++ demoSubmitOrder.name ∧
      tpl.tasks.map TemplateTask.subject
        = demoSubmitOrder.items.map subjectOf ∧
      (create_project_template demoPTWorld demoSubmitOrder).tasks.map
          TaskDoc.subject
        = demoPTWorld.tasks.map TaskDoc.subject
            ++ demoSubmitOrder.items.map subjectOf ∧
      (create_project_template demoPTWorld demoSubmitOrder).tasks.length
        = demoPTWorld.tasks.length + demoSubmitOrder.items.length ∧
      tpl.tasks.map TemplateTask.task
        = ((create_project_template demoPTWorld demoSubmitOrder).tasks.drop
            demoPTWorld.tasks.length).map TaskDoc.name) ∧
    (create_project_template
        (create_project_template demoPTWorld demoSubmitOrder)
        demoSubmitOrder).templates
      = (create_project_template demoPTWorld demoSubmitOrder).templates :=
  ⟨c3_project_template.1 demoPTWorld demoSubmitOrder rfl (by decide)
      (by decide),
    (c3_project_template.2.2 demoPTWorld demoSubmitOrder).1⟩

theorem c10_witness :
    ensure_single_sales_order [demoBlankA, demoBlankB] demoBlankC = .ok () ∧
    applyOps ([demoBlankB, demoBlankC].map SOOp.insert) [demoBlankA]
      = [demoBlankA] ++ [demoBlankB, demoBlankC] :=
  ⟨c10_blank_customer_guard.1 _ _ (by decide),
    c10_blank_customer_guard.2 [demoBlankB, demoBlankC] [demoBlankA]
      (by decide) (by decide) (by decide)⟩

/-! ### Guest Onboarding records and the cancel unlink hooks
(guest_onboarding.py and sales_order.py lines 86-138) -/

/-- One row of the onboarding's service selection child table. -/
structure ServiceRow where
  service_type : String
  rate : Nat
deriving DecidableEq, Repr

/-- One row of the onboarding's roommates child table. -/
structure RoommateRow where
  guest : Option String
  service_type : Option String
  from_date : Option Date
  to_date : Option Date
  no_of_guests : Option Nat
  nationality : Option String
  id_proof_type : Option String
  id_proof_number : Option String
  user_photo : Option String
deriving DecidableEq, Repr

/-- A Guest Onboarding document.  `modified` again stands for the audit
timestamp that non-audited `db_set` updates leave untouched. -/
structure GuestOnboarding where
  name : String
  guest : String
  from_date : Option Date
  to_date : Option Date
  no_of_guests : Nat
  nationality : Option String
  id_proof_type : Option String
  id_proof_number : Option String
  passport_number : Option String
  visa_number : Option String
  check_in_time : Option String
  check_out_time : Option String
  status : String
  docstatus : Nat
  reference_doctype : Option String
  reference_name : Option String
  user_photo : Option String
  service_type : List ServiceRow
  roommates : List RoommateRow
  modified : Nat
deriving DecidableEq, Repr

/-- The two tables the cancel unlink hooks touch. -/
structure UnlinkWorld where
  gos : List GuestOnboarding
  sos : List Order
deriving DecidableEq, Repr

/-- `db_set` on the Guest Onboarding named n: a direct field update that
bypasses the save pipeline (no before_save validation) and leaves `modified`
untouched unless f itself changes it. -/
def updateGO (w : UnlinkWorld) (n : String)
    (f : GuestOnboarding → GuestOnboarding) : UnlinkWorld :=
  { w with gos := w.gos.map (fun g => if g.name == n then f g else g) }

/-- `db_set` on the Sales Order named n. -/
def updateSO (w : UnlinkWorld) (n : String) (f : Order → Order) :
    UnlinkWorld :=
  { w with sos := w.sos.map (fun o => if o.name == n then f o else o) }

/-- `frappe.get_doc("Guest Onboarding", n)` as a lookup. -/
def findGO (w : UnlinkWorld) (n : String) : Option GuestOnboarding :=
  w.gos.find? (fun g => g.name == n)

/-- `frappe.get_doc("Sales Order", n)` as a lookup. -/
def findSO (w : UnlinkWorld) (n : String) : Option Order :=
  w.sos.find? (fun o => o.name == n)

/-- before_cancel_unlink_sales_order (guest_onboarding.py lines 63-81):
before cancelling a Guest Onboarding, break the link on both sides so the
framework's link validation cannot block the cancel; a missing Sales Order
is silently passed over. -/
def before_cancel_unlink_sales_order (w : UnlinkWorld) (goName : String) :
    UnlinkWorld :=
  match findGO w goName with
  | none => w
  | some go =>
      if !pyTruthy go.reference_name
          || go.reference_doctype != some "Sales Order" then w
      else
        match findSO w (go.reference_name.getD "") with
        | none => w
        | some _ =>
            let w1 := updateSO w (go.reference_name.getD "")
              (fun s => { s with custom_guest_onboarding_id := none })
            updateGO w1 goName
              (fun g => { g with reference_name := none, reference_doctype := none })

/-- on_cancel_unlink_sales_order (guest_onboarding.py lines 37-61): the
defensive re-clear after cancel; a missing Sales Order is logged.  The world
effect is the same shape as the before hook. -/
def on_cancel_unlink_sales_order (w : UnlinkWorld) (goName : String) :
    UnlinkWorld :=
  match findGO w goName with
  | none => w
  | some go =>
      if !pyTruthy go.reference_name
          || go.reference_doctype != some "Sales Order" then w
      else
        match findSO w (go.reference_name.getD "") with
        | none => w
        | some _ =>
            let w1 := updateSO w (go.reference_name.getD "")
              (fun s => { s with custom_guest_onboarding_id := none })
            updateGO w1 goName
              (fun g => { g with reference_name := none, reference_doctype := none })

/-- The framework's cancel pipeline for a Guest Onboarding: before_cancel
hook, docstatus set to 2 (an audited write, stamping `modified` with t),
on_cancel hook. -/
def cancel_guest_onboarding (w : UnlinkWorld) (goName : String) (t : Nat) :
    UnlinkWorld :=
  on_cancel_unlink_sales_order
    (updateGO (before_cancel_unlink_sales_order w goName) goName
      (fun g => { g with docstatus := 2, modified := t })) goName

/-- before_cancel_unlink_guest_onboarding (sales_order.py lines 115-138):
before cancelling a Sales Order, break the link on both sides. -/
def before_cancel_unlink_guest_onboarding (w : UnlinkWorld)
    (soName : String) : UnlinkWorld :=
  match findSO w soName with
  | none => w
  | some so =>
      if !pyTruthy so.custom_guest_onboarding_id then w
      else
        match findGO w (so.custom_guest_onboarding_id.getD "") with
        | none => w
        | some _ =>
            let w1 := updateGO w (so.custom_guest_onboarding_id.getD "")
              (fun g => { g with reference_name := none, reference_doctype := none })
            updateSO w1 soName
              (fun s => { s with custom_guest_onboarding_id := none })

/-- on_cancel_unlink_guest_onboarding (sales_order.py lines 86-113): the
defensive re-clear after cancel; a missing Guest Onboarding is logged. -/
def on_cancel_unlink_guest_onboarding (w : UnlinkWorld) (soName : String) :
    UnlinkWorld :=
  match findSO w soName with
  | none => w
  | some so =>
      if !pyTruthy so.custom_guest_onboarding_id then w
      else
        match findGO w (so.custom_guest_onboarding_id.getD "") with
        | none => w
        | some _ =>
            let w1 := updateGO w (so.custom_guest_onboarding_id.getD "")
              (fun g => { g with reference_name := none, reference_doctype := none })
            updateSO w1 soName
              (fun s => { s with custom_guest_onboarding_id := none })

/-- The framework's cancel pipeline for a Sales Order. -/
def cancel_sales_order (w : UnlinkWorld) (soName : String) (t : Nat) :
    UnlinkWorld :=
  on_cancel_unlink_guest_onboarding
    (updateSO (before_cancel_unlink_guest_onboarding w soName) soName
      (fun s => { s with docstatus := 2, modified := t })) soName

theorem find_name_map {α : Type} (nm : α → String) (l : List α) (n : String)
    (f : α → α) (hf : ∀ a, nm (f a) = nm a) :
    (l.map (fun a => if nm a == n then f a else a)).find?
        (fun a => nm a == n)
      = (l.find? (fun a => nm a == n)).map f := by
  induction l with
  | nil => rfl
  | cons a l ih =>
    simp only [List.map_cons]
    by_cases ha : nm a = n
    · have h1 : (if nm a == n then f a else a) = f a := by simp [ha]
      rw [h1]
      rw [List.find?_cons_of_pos _ (by simp [hf, ha]),
        List.find?_cons_of_pos _ (by simp [ha])]
      rfl
    · have h1 : (if nm a == n then f a else a) = a := by simp [ha]
      rw [h1]
      rw [List.find?_cons_of_neg _ (by simp [ha]),
        List.find?_cons_of_neg _ (by simp [ha])]
      exact ih

theorem findGO_updateGO (w : UnlinkWorld) (n : String)
    (f : GuestOnboarding → GuestOnboarding)
    (hf : ∀ g, (f g).name = g.name) :
    findGO (updateGO w n f) n = (findGO w n).map f :=
  find_name_map GuestOnboarding.name w.gos n f hf

theorem findSO_updateSO (w : UnlinkWorld) (n : String) (f : Order → Order)
    (hf : ∀ o, (f o).name = o.name) :
    findSO (updateSO w n f) n = (findSO w n).map f :=
  find_name_map Order.name w.sos n f hf

/-- C2: cancelling a Guest Onboarding linked to an existing Sales Order (and
symmetrically cancelling a Sales Order linked to an existing Guest
Onboarding) clears the cross-reference on both sides: already after the
before-cancel hook the onboarding's reference_name and reference_doctype and
the order's custom_guest_onboarding_id are all null with both documents'
`modified` audit stamps untouched (the clearing is a non-audited db_set that
never runs before_save validation), and after the full cancel pipeline the
links remain null on both sides with the cancelled document at docstatus 2
and the counterpart's `modified` still untouched. -/
theorem c2_cancel_unlink_symmetric :
    (∀ (w : UnlinkWorld) (goName soName : String) (go : GuestOnboarding)
        (so : Order) (t : Nat),
      findGO w goName = some go →
      go.reference_doctype = some "Sales Order" →
      go.reference_name = some soName → soName ≠ "" →
      findSO w soName = some so →
      (∃ g, findGO (before_cancel_unlink_sales_order w goName) goName
          = some g ∧
        g.reference_name = none ∧ g.reference_doctype = none ∧
        g.modified = go.modified) ∧
      (∃ s, findSO (before_cancel_unlink_sales_order w goName) soName
          = some s ∧
        s.custom_guest_onboarding_id = none ∧ s.modified = so.modified) ∧
      (∃ g, findGO (cancel_guest_onboarding w goName t) goName = some g ∧
        g.reference_name = none ∧ g.reference_doctype = none ∧
        g.docstatus = 2) ∧
      (∃ s, findSO (cancel_guest_onboarding w goName t) soName = some s ∧
        s.custom_guest_onboarding_id = none ∧ s.modified = so.modified)) ∧
    (∀ (w : UnlinkWorld) (soName goName : String) (so : Order)
        (go : GuestOnboarding) (t : Nat),
      findSO w soName = some so →
      so.custom_guest_onboarding_id = some goName → goName ≠ "" →
      findGO w goName = some go →
      (∃ s, findSO (before_cancel_unlink_guest_onboarding w soName) soName
          = some s ∧
        s.custom_guest_onboarding_id = none ∧ s.modified = so.modified) ∧
      (∃ g, findGO (before_cancel_unlink_guest_onboarding w soName) goName
          = some g ∧
        g.reference_name = none ∧ g.reference_doctype = none ∧
        g.modified = go.modified) ∧
      (∃ s, findSO (cancel_sales_order w soName t) soName = some s ∧
        s.custom_guest_onboarding_id = none ∧ s.docstatus = 2) ∧
      (∃ g, findGO (cancel_sales_order w soName t) goName = some g ∧
        g.reference_name = none ∧ g.reference_doctype = none ∧
        g.modified = go.modified)) := by
  constructor
  · intro w goName soName go so t hgo hdt hrn hne hso
    have hwb : before_cancel_unlink_sales_order w goName
        = updateGO (updateSO w soName
            (fun s => { s with custom_guest_onboarding_id := none })) goName
            (fun g => { g with reference_name := none, reference_doctype := none }) := by
      unfold before_cancel_unlink_sales_order
      rw [hgo]
      simp only [hrn, hdt, pyTruthy, Option.getD_some]
      rw [if_neg (by simp [hne])]
      rw [hso]
    have hgb : findGO (before_cancel_unlink_sales_order w goName) goName
        = some { go with reference_name := none, reference_doctype := none } := by
      rw [hwb, findGO_updateGO _ goName
        (fun g => { g with reference_name := none, reference_doctype := none })
        (fun g => rfl)]
      have : findGO (updateSO w soName
          (fun s => { s with custom_guest_onboarding_id := none })) goName
          = findGO w goName := rfl
      rw [this, hgo]
      rfl
    have hsb : findSO (before_cancel_unlink_sales_order w goName) soName
        = some { so with custom_guest_onboarding_id := none } := by
      rw [hwb]
      have h1 : findSO (updateGO (updateSO w soName
          (fun s => { s with custom_guest_onboarding_id := none })) goName
          (fun g => { g with reference_name := none, reference_doctype := none })) soName
          = findSO (updateSO w soName
            (fun s => { s with custom_guest_onboarding_id := none }))
            soName := rfl
      rw [h1, findSO_updateSO _ soName
        (fun s => { s with custom_guest_onboarding_id := none })
        (fun o => rfl), hso]
      rfl
    have hg2 : findGO (updateGO (before_cancel_unlink_sales_order w goName)
        goName (fun g => { g with docstatus := 2, modified := t })) goName
        = some { go with reference_name := none, reference_doctype := none, docstatus := 2, modified := t } := by
      rw [findGO_updateGO _ goName
        (fun g => { g with docstatus := 2, modified := t })
        (fun g => rfl), hgb]
      rfl
    have hs2 : findSO (updateGO (before_cancel_unlink_sales_order w goName)
        goName (fun g => { g with docstatus := 2, modified := t })) soName
        = some { so with custom_guest_onboarding_id := none } := by
      rw [← hsb]
      rfl
    have hfinal : cancel_guest_onboarding w goName t
        = updateGO (before_cancel_unlink_sales_order w goName) goName
            (fun g => { g with docstatus := 2, modified := t }) := by
      unfold cancel_guest_onboarding
      unfold on_cancel_unlink_sales_order
      rw [hg2]
      rfl
    refine ⟨⟨_, hgb, rfl, rfl, rfl⟩, ⟨_, hsb, rfl, rfl⟩, ?_, ?_⟩
    · exact ⟨_, by rw [hfinal]; exact hg2, rfl, rfl, rfl⟩
    · exact ⟨{ so with custom_guest_onboarding_id := none },
        by rw [hfinal]; exact hs2, rfl, rfl⟩
  · intro w soName goName so go t hso hcg hne hgo
    have hwb : before_cancel_unlink_guest_onboarding w soName
        = updateSO (updateGO w goName
            (fun g => { g with reference_name := none, reference_doctype := none })) soName
            (fun s => { s with custom_guest_onboarding_id := none }) := by
      unfold before_cancel_unlink_guest_onboarding
      rw [hso]
      simp only [hcg, pyTruthy, Option.getD_some]
      rw [if_neg (by simp [hne])]
      rw [hgo]
    have hsb : findSO (before_cancel_unlink_guest_onboarding w soName) soName
        = some { so with custom_guest_onboarding_id := none } := by
      rw [hwb, findSO_updateSO _ soName
        (fun s => { s with custom_guest_onboarding_id := none })
        (fun o => rfl)]
      have : findSO (updateGO w goName
          (fun g => { g with reference_name := none, reference_doctype := none })) soName = findSO w soName := rfl
      rw [this, hso]
      rfl
    have hgb : findGO (before_cancel_unlink_guest_onboarding w soName) goName
        = some { go with reference_name := none, reference_doctype := none } := by
      rw [hwb]
      have h1 : findGO (updateSO (updateGO w goName
          (fun g => { g with reference_name := none, reference_doctype := none })) soName
          (fun s => { s with custom_guest_onboarding_id := none })) goName
          = findGO (updateGO w goName
            (fun g => { g with reference_name := none, reference_doctype := none })) goName := rfl
      rw [h1, findGO_updateGO _ goName
        (fun g => { g with reference_name := none, reference_doctype := none })
        (fun g => rfl), hgo]
      rfl
    have hs2 : findSO (updateSO (before_cancel_unlink_guest_onboarding w
        soName) soName (fun s => { s with docstatus := 2, modified := t }))
        soName
        = some { so with custom_guest_onboarding_id := none, docstatus := 2, modified := t } := by
      rw [findSO_updateSO _ soName
        (fun s => { s with docstatus := 2, modified := t })
        (fun o => rfl), hsb]
      rfl
    have hg2 : findGO (updateSO (before_cancel_unlink_guest_onboarding w
        soName) soName (fun s => { s with docstatus := 2, modified := t }))
        goName
        = some { go with reference_name := none, reference_doctype := none } := by
      rw [← hgb]
      rfl
    have hfinal : cancel_sales_order w soName t
        = updateSO (before_cancel_unlink_guest_onboarding w soName) soName
            (fun s => { s with docstatus := 2, modified := t }) := by
      unfold cancel_sales_order
      unfold on_cancel_unlink_guest_onboarding
      rw [hs2]
      rfl
    refine ⟨⟨_, hsb, rfl, rfl⟩, ⟨_, hgb, rfl, rfl, rfl⟩, ?_, ?_⟩
    · exact ⟨_, by rw [hfinal]; exact hs2, rfl, rfl⟩
    · exact ⟨{ go with reference_name := none, reference_doctype := none },
        by rw [hfinal]; exact hg2, rfl, rfl, rfl⟩

/-- Concrete linked pair used by the C2 witness. -/
def demoLinkedGO : GuestOnboarding :=
  { name := "GO-0001", guest := "CUST-A", from_date := some ⟨2025, 11, 22⟩,
    to_date := some ⟨2025, 11, 24⟩, no_of_guests := 2,
    nationality := some "India", id_proof_type := some "Aadhar Card",
    id_proof_number := some "1234", passport_number := none,
    visa_number := none, check_in_time := none, check_out_time := none,
    status := "Onboarded", docstatus := 1,
    reference_doctype := some "Sales Order",
    reference_name := some "SAL-ORD-0301", user_photo := none,
    service_type := [], roommates := [], modified := 7 }

def demoLinkedSO : Order :=
  { name := "SAL-ORD-0301", customer := some "CUST-A", docstatus := 1,
    custom_guest_onboarding_id := some "GO-0001", modified := 9, items := [] }

def demoUnlinkWorld : UnlinkWorld :=
  { gos := [demoLinkedGO], sos := [demoLinkedSO] }

theorem c2_witness :
    ((∃ g, findGO (before_cancel_unlink_sales_order demoUnlinkWorld
        "GO-0001") "GO-0001" = some g ∧
      g.reference_name = none ∧ g.reference_doctype = none ∧
      g.modified = demoLinkedGO.modified) ∧
     (∃ s, findSO (before_cancel_unlink_sales_order demoUnlinkWorld
        "GO-0001") "SAL-ORD-0301" = some s ∧
      s.custom_guest_onboarding_id = none ∧
      s.modified = demoLinkedSO.modified) ∧
     (∃ g, findGO (cancel_guest_onboarding demoUnlinkWorld "GO-0001" 42)
        "GO-0001" = some g ∧
      g.reference_name = none ∧ g.reference_doctype = none ∧
      g.docstatus = 2) ∧
     (∃ s, findSO (cancel_guest_onboarding demoUnlinkWorld "GO-0001" 42)
        "SAL-ORD-0301" = some s ∧
      s.custom_guest_onboarding_id = none ∧
      s.modified = demoLinkedSO.modified)) ∧
    ((∃ s, findSO (before_cancel_unlink_guest_onboarding demoUnlinkWorld
        "SAL-ORD-0301") "SAL-ORD-0301" = some s ∧
      s.custom_guest_onboarding_id = none ∧
      s.modified = demoLinkedSO.modified) ∧
     (∃ g, findGO (before_cancel_unlink_guest_onboarding demoUnlinkWorld
        "SAL-ORD-0301") "GO-0001" = some g ∧
      g.reference_name = none ∧ g.reference_doctype = none ∧
      g.modified = demoLinkedGO.modified) ∧
     (∃ s, findSO (cancel_sales_order demoUnlinkWorld "SAL-ORD-0301" 42)
        "SAL-ORD-0301" = some s ∧
      s.custom_guest_onboarding_id = none ∧ s.docstatus = 2) ∧
     (∃ g, findGO (cancel_sales_order demoUnlinkWorld "SAL-ORD-0301" 42)
        "GO-0001" = some g ∧
      g.reference_name = none ∧ g.reference_doctype = none ∧
      g.modified = demoLinkedGO.modified)) :=
  ⟨c2_cancel_unlink_symmetric.1 demoUnlinkWorld "GO-0001" "SAL-ORD-0301"
      demoLinkedGO demoLinkedSO 42 rfl rfl rfl (by decide) rfl,
    c2_cancel_unlink_symmetric.2 demoUnlinkWorld "SAL-ORD-0301" "GO-0001"
      demoLinkedSO demoLinkedGO 42 rfl rfl (by decide) rfl⟩

/-! ### Account provisioning and password reset (api.py) -/

/-- A User record (the Account).  Its document name is the email. -/
structure UserA where
  name : String
  email : String
  first_name : String
  last_name : String
  full_name : String
  mobile_no : String
  enabled : Bool
  user_type : String
  password : String
  reset_password_key : Option String
  last_reset_password_key_generated_on : Option Nat
  roles : List String
deriving DecidableEq, Repr

/-- A Lead record. -/
structure Lead where
  name : String
  lead_name : String
  email_id : String
  mobile_no : String
  phone : String
  status : String
  territory : String
  company : String
  comments : List String
deriving DecidableEq, Repr

/-- The store seen by the account and password endpoints.  `leadCounter`
drives the framework's sequential Lead naming. -/
structure AuthWorld where
  users : List UserA
  leads : List Lead
  leadCounter : Nat
  defaultCompany : String
deriving DecidableEq, Repr

/-- The two response shapes of the endpoints:
success-shaped `with success true and message` and error-shaped
`with success false and error`. -/
inductive ApiResp where
  | ok (message : String)
  | err (error : String)
deriving DecidableEq, Repr

/-- Whether the response is success-shaped. -/
def isSuccessResp : ApiResp → Bool
  | .ok _ => true
  | .err _ => false

/-- The success payload of create_customer: the lead's id, display name,
email, phone and status. -/
inductive CreateResp where
  | ok (name lead_name email phone status : String)
  | err (error : String)
deriving DecidableEq, Repr

/-- create_customer (api.py lines 15-188): validate the four required
fields, the email format and the password length; reject a duplicate Lead or
User for the normalized email before any insert; otherwise insert a Lead and
a User (role "Customer", name split on whitespace), link them by a comment
annotation, commit, and return the lead payload. -/
def create_customer (w : AuthWorld)
    (full_name email phone password : String) : CreateResp × AuthWorld :=
  if full_name = "" then (.err "Full Name is required", w)
  else if email = "" then (.err "Email is required", w)
  else if phone = "" then (.err "Phone is required", w)
  else if password = "" then (.err "Password is required", w)
  else
    let e := normalizeEmail email
    if !emailValid e then (.err "Invalid email format", w)
    else if password.length < 6 then
      (.err "Password must be at least 6 characters long", w)
    else if w.leads.any (fun l => l.email_id == e) then
      (.err "A lead with this email already exists", w)
    else if w.users.any (fun u => u.name == e) then
      (.err "A user with this email already exists", w)
    else
      let lead_name := pyStrip full_name
      let phone_t := pyStrip phone
      let leadNm := "CRM-LEAD-" ++ toString w.leadCounter
      let name_parts := pySplitWs lead_name
      let first_name := match name_parts with
        | [] => "User"
        | p :: _ => p
      let last_name := String.intercalate " " (name_parts.drop 1)
      let lead : Lead :=
        { name := leadNm, lead_name := lead_name, email_id := e,
          mobile_no := phone_t, phone := phone_t, status := "Lead",
          territory := "All Territories", company := w.defaultCompany,
          comments := ["User account created: " ++ e] }
      let user : UserA :=
        { name := e, email := e, first_name := first_name,
          last_name := last_name,
          full_name := pyStrip (first_name ++ " " ++ last_name),
          mobile_no := phone_t, enabled := true,
          user_type := "Website User", password := password,
          reset_password_key := none,
          last_reset_password_key_generated_on := none,
          roles := ["Customer"] }
      (.ok leadNm lead_name e phone_t "Lead",
        { w with
            leads := w.leads ++ [lead], users := w.users ++ [user],
            leadCounter := w.leadCounter + 1 })

/-- The anti-enumeration success message of forgot_password. -/
def genericResetMsg : String :=
  "If this email is registered, you will receive a password reset link shortly."

/-- forgot_password (api.py lines 304-443): validate presence and format of
the email; if no User exists answer with the generic success message; if the
User is disabled answer with an error; otherwise store a fresh random reset
key with a timestamp on the User and send the mail.  `freshKey` stands for
`random_string(32)` and `now` for `now_datetime()`. -/
def forgot_password (w : AuthWorld) (email : String) (freshKey : String)
    (now : Nat) : ApiResp × AuthWorld :=
  if email = "" then (.err "Email is required", w)
  else
    let e := normalizeEmail email
    if !emailValid e then (.err "Invalid email format", w)
    else
      match w.users.find? (fun u => u.name == e) with
      | none => (.ok genericResetMsg, w)
      | some u =>
          if !u.enabled then
            (.err "Your account has been disabled. Please contact support.", w)
          else
            (.ok ("Password reset link has been sent to your email address."
                ++ " Please check your inbox."),
              { w with users := w.users.map (fun v =>
                  if v.name == e then
                    { v with
                        reset_password_key := some freshKey,
                        last_reset_password_key_generated_on := some now }
                  else v) })

/-- The InvalidToken error message of reset_password. -/
def invalidTokenMsg : String := "Invalid or expired reset link"

/-- reset_password (api.py lines 446-475): require both arguments, enforce
password length of at least 6, look the User up by the stored reset key
(InvalidToken when none matches), update the credential, clear the stored
key so it cannot be reused, and commit. -/
def reset_password (w : AuthWorld) (key new_password : String) :
    ApiResp × AuthWorld :=
  if key = "" ∨ new_password = "" then
    (.err "Key and new password are required", w)
  else if new_password.length < 6 then
    (.err "Password must be at least 6 characters long", w)
  else
    match w.users.find? (fun u => u.reset_password_key == some key) with
    | none => (.err invalidTokenMsg, w)
    | some u =>
        (.ok "Password has been reset successfully",
          { w with users := w.users.map (fun v =>
              if v.name == u.name then
                { v with
                    password := new_password, reset_password_key := none }
              else v) })

theorem create_customer_fresh_eval (w : AuthWorld)
    (full_name email phone password : String)
    (h1 : full_name ≠ "") (h2 : email ≠ "") (h3 : phone ≠ "")
    (h4 : password ≠ "")
    (hvalid : emailValid (normalizeEmail email) = true)
    (hlen : ¬ password.length < 6)
    (hL : w.leads.any (fun l => l.email_id == normalizeEmail email) = false)
    (hU : w.users.any (fun u => u.name == normalizeEmail email) = false) :
    create_customer w full_name email phone password
      = (.ok ("CRM-LEAD-" ++ toString w.leadCounter) (pyStrip full_name)
          (normalizeEmail email) (pyStrip phone) "Lead",
        { w with
            leads := w.leads ++ [{
              name := "CRM-LEAD-" ++ toString w.leadCounter,
              lead_name := pyStrip full_name,
              email_id := normalizeEmail email, mobile_no := pyStrip phone,
              phone := pyStrip phone, status := "Lead",
              territory := "All Territories", company := w.defaultCompany,
              comments :=
                ["User account created: " ++ normalizeEmail email] }],
            users := w.users ++ [{
              name := normalizeEmail email, email := normalizeEmail email,
              first_name := match pySplitWs (pyStrip full_name) with
                | [] => "User"
                | p :: _ => p,
              last_name := String.intercalate " "
                ((pySplitWs (pyStrip full_name)).drop 1),
              full_name := pyStrip ((match pySplitWs (pyStrip full_name) with
                | [] => "User"
                | p :: _ => p) ++ " " ++ String.intercalate " "
                ((pySplitWs (pyStrip full_name)).drop 1)),
              mobile_no := pyStrip phone, enabled := true,
              user_type := "Website User", password := password,
              reset_password_key := none,
              last_reset_password_key_generated_on := none,
              roles := ["Customer"] }],
            leadCounter := w.leadCounter + 1 }) := by
  unfold create_customer
  rw [if_neg h1, if_neg h2, if_neg h3, if_neg h4]
  simp only [hvalid, Bool.not_true, Bool.false_eq_true, if_false, hL, hU]
  rw [if_neg hlen]

/-- C7: with otherwise valid input, a registration whose normalized email
already has a Lead or a User fails with a duplicate-email error and leaves
the store unchanged (the duplicate checks run before any insert); a first
valid registration succeeds, returns the lead's id, name, email, phone and
status, and leaves exactly one Lead and one User for that email. -/
theorem c7_duplicate_email_registration :
    (∀ (w : AuthWorld) (full_name email phone password : String),
      full_name ≠ "" → email ≠ "" → phone ≠ "" → password ≠ "" →
      emailValid (normalizeEmail email) = true →
      6 ≤ password.length →
      ((∃ l ∈ w.leads, l.email_id = normalizeEmail email) ∨
        (∃ u ∈ w.users, u.name = normalizeEmail email)) →
      ∃ m, create_customer w full_name email phone password = (.err m, w) ∧
        (m = "A lead with this email already exists" ∨
          m = "A user with this email already exists")) ∧
    (∀ (w : AuthWorld) (full_name email phone password : String),
      full_name ≠ "" → email ≠ "" → phone ≠ "" → password ≠ "" →
      emailValid (normalizeEmail email) = true →
      6 ≤ password.length →
      (∀ l ∈ w.leads, l.email_id ≠ normalizeEmail email) →
      (∀ u ∈ w.users, u.name ≠ normalizeEmail email) →
      ∃ w1, create_customer w full_name email phone password
          = (.ok ("CRM-LEAD-" ++ toString w.leadCounter) (pyStrip full_name)
              (normalizeEmail email) (pyStrip phone) "Lead", w1) ∧
        w1.leads.countP (fun l => l.email_id == normalizeEmail email) = 1 ∧
        w1.users.countP (fun u => u.name == normalizeEmail email) = 1) := by
  constructor
  · intro w full_name email phone password h1 h2 h3 h4 hvalid hlen hdup
    have hlen2 : ¬ password.length < 6 := by omega
    by_cases hL : w.leads.any
        (fun l => l.email_id == normalizeEmail email) = true
    · refine ⟨"A lead with this email already exists", ?_, Or.inl rfl⟩
      unfold create_customer
      rw [if_neg h1, if_neg h2, if_neg h3, if_neg h4]
      simp only [hvalid, Bool.not_true, Bool.false_eq_true, if_false, hL,
        if_true]
      rw [if_neg hlen2]
    · rw [Bool.not_eq_true] at hL
      have hU : w.users.any (fun u => u.name == normalizeEmail email)
          = true := by
        rcases hdup with ⟨l, hl, hle⟩ | ⟨u, hu, hue⟩
        · exfalso
          have := (List.any_eq_false).mp hL l hl
          simp [hle] at this
        · rw [List.any_eq_true]
          exact ⟨u, hu, by simp [hue]⟩
      refine ⟨"A user with this email already exists", ?_, Or.inr rfl⟩
      unfold create_customer
      rw [if_neg h1, if_neg h2, if_neg h3, if_neg h4]
      simp only [hvalid, Bool.not_true, Bool.false_eq_true, if_false, hL,
        hU, if_true]
      rw [if_neg hlen2]
  · intro w full_name email phone password h1 h2 h3 h4 hvalid hlen hnl hnu
    have hlen2 : ¬ password.length < 6 := by omega
    have hL : w.leads.any (fun l => l.email_id == normalizeEmail email)
        = false := by
      rw [List.any_eq_false]
      intro l hl
      simpa using hnl l hl
    have hU : w.users.any (fun u => u.name == normalizeEmail email)
        = false := by
      rw [List.any_eq_false]
      intro u hu
      simpa using hnu u hu
    refine ⟨_, create_customer_fresh_eval w full_name email phone password
      h1 h2 h3 h4 hvalid hlen2 hL hU, ?_, ?_⟩
    · rw [List.countP_append]
      have hz : w.leads.countP (fun l => l.email_id == normalizeEmail email)
          = 0 := by
        rw [List.countP_eq_zero]
        intro l hl
        simpa using hnl l hl
      rw [hz]
      simp
    · rw [List.countP_append]
      have hz : w.users.countP (fun u => u.name == normalizeEmail email)
          = 0 := by
        rw [List.countP_eq_zero]
        intro u hu
        simpa using hnu u hu
      rw [hz]
      simp

/-- Concrete stores used by the C7 witness. -/
def demoAuthUser : UserA :=
  { name := "guest@example.com", email := "guest@example.com",
    first_name := "Guest", last_name := "One", full_name := "Guest One",
    mobile_no := "111", enabled := true, user_type := "Website User",
    password := "oldpass", reset_password_key := none,
    last_reset_password_key_generated_on := none, roles := ["Customer"] }

def demoAuthWorldEmpty : AuthWorld :=
  { users := [], leads := [], leadCounter := 0, defaultCompany := "KRC" }

def demoAuthWorldTaken : AuthWorld :=
  { users := [demoAuthUser], leads := [], leadCounter := 0,
    defaultCompany := "KRC" }

theorem c7_witness :
    (∃ m, create_customer demoAuthWorldTaken "Guest One"
        " Guest@Example.com " "111" "secret1" = (.err m, demoAuthWorldTaken)
        ∧ (m = "A lead with this email already exists" ∨
          m = "A user with this email already exists")) ∧
    (∃ w1, create_customer demoAuthWorldEmpty "Guest One"
        " Guest@Example.com " "111" "secret1"
        = (.ok "CRM-LEAD-0" "Guest One" "guest@example.com" "111" "Lead",
          w1) ∧
      w1.leads.countP (fun l => l.email_id == "guest@example.com") = 1 ∧
      w1.users.countP (fun u => u.name == "guest@example.com") = 1) :=
  ⟨c7_duplicate_email_registration.1 demoAuthWorldTaken "Guest One"
      " Guest@Example.com " "111" "secret1" (by decide) (by decide)
      (by decide) (by decide) (by decide) (by decide)
      (Or.inr ⟨demoAuthUser, by decide, by decide⟩),
    c7_duplicate_email_registration.2 demoAuthWorldEmpty "Guest One"
      " Guest@Example.com " "111" "secret1" (by decide) (by decide)
      (by decide) (by decide) (by decide) (by decide)
      (by intro l hl; simp [demoAuthWorldEmpty] at hl)
      (by intro u hu; simp [demoAuthWorldEmpty] at hu)⟩

/-- C5 counterexample: a syntactically invalid email makes
request_password_reset return an error-shaped response, so the response is
not success-shaped for every input email. -/
theorem c5_counterexample :
    forgot_password demoAuthWorldEmpty "not-an-email" "k0-fresh" 0
        = (.err "Invalid email format", demoAuthWorldEmpty) ∧
    isSuccessResp (forgot_password demoAuthWorldEmpty "not-an-email"
        "k0-fresh" 0).1 = false := by
  constructor
  · rfl
  · rfl

/-- C5 (amended): for every non-empty, well-formed email that does not
belong to a disabled account, forgot_password returns a success-shaped
response; in particular, when no User exists for the normalized email it
returns the generic anti-enumeration success message and leaves the store
unchanged.  (Missing or malformed emails and disabled accounts yield
error-shaped responses.) -/
theorem c5_forgot_password_success_shape :
    (∀ (w : AuthWorld) (email freshKey : String) (now : Nat),
      email ≠ "" →
      emailValid (normalizeEmail email) = true →
      (∀ u ∈ w.users, u.name = normalizeEmail email → u.enabled = true) →
      isSuccessResp (forgot_password w email freshKey now).1 = true) ∧
    (∀ (w : AuthWorld) (email freshKey : String) (now : Nat),
      email ≠ "" →
      emailValid (normalizeEmail email) = true →
      (∀ u ∈ w.users, u.name ≠ normalizeEmail email) →
      forgot_password w email freshKey now = (.ok genericResetMsg, w)) := by
  constructor
  · intro w email freshKey now h1 hvalid hen
    unfold forgot_password
    rw [if_neg h1]
    simp only [hvalid, Bool.not_true, Bool.false_eq_true, if_false]
    rcases hf : w.users.find? (fun u => u.name == normalizeEmail email)
        with _ | u <;> rw [hf]
    · rfl
    · have hmem := List.mem_of_find?_eq_some hf
      have hname := List.find?_some hf
      rw [beq_iff_eq] at hname
      have hu := hen u hmem hname
      simp [hu, isSuccessResp]
  · intro w email freshKey now h1 hvalid hno
    unfold forgot_password
    rw [if_neg h1]
    simp only [hvalid, Bool.not_true, Bool.false_eq_true, if_false]
    have hf : w.users.find? (fun u => u.name == normalizeEmail email)
        = none := by
      rw [List.find?_eq_none]
      intro u hu
      simpa using hno u hu
    rw [hf]

theorem c5_witness :
    isSuccessResp (forgot_password demoAuthWorldTaken "guest@example.com"
        "k1-fresh" 3).1 = true ∧
    forgot_password demoAuthWorldEmpty "ghost@example.com" "k2-fresh" 3
      = (.ok genericResetMsg, demoAuthWorldEmpty) :=
  ⟨c5_forgot_password_success_shape.1 demoAuthWorldTaken "guest@example.com"
      "k1-fresh" 3 (by decide) (by decide)
      (by intro u hu he; fin_cases hu; rfl),
    c5_forgot_password_success_shape.2 demoAuthWorldEmpty "ghost@example.com"
      "k2-fresh" 3 (by decide) (by decide)
      (by intro u hu; simp [demoAuthWorldEmpty] at hu)⟩

/-- C6: redeeming a stored reset token (held by exactly one account, with a
password of length at least 6) succeeds, updates the credential and clears
the stored key; a second redemption of the same token then fails with the
InvalidToken error and changes nothing; and any call with a password shorter
than 6 characters fails with the store unchanged. -/
theorem c6_reset_token_single_use :
    ∀ (w : AuthWorld) (t p : String) (u : UserA),
      t ≠ "" → 6 ≤ p.length →
      w.users.find? (fun v => v.reset_password_key == some t) = some u →
      (∀ v ∈ w.users, v.reset_password_key = some t → v.name = u.name) →
      ∃ w1, reset_password w t p
          = (.ok "Password has been reset successfully", w1) ∧
        (∃ v ∈ w1.users, v.name = u.name ∧ v.password = p ∧
          v.reset_password_key = none) ∧
        (∀ p2, 6 ≤ p2.length →
          reset_password w1 t p2 = (.err invalidTokenMsg, w1)) ∧
        (∀ pshort, pshort.length < 6 →
          ∃ m, reset_password w t pshort = (.err m, w)) := by
  intro w t p u ht hp hfind huniq
  have hp0 : p ≠ "" := by
    intro h
    rw [h] at hp
    simp at hp
  have hcall1 : reset_password w t p
      = (.ok "Password has been reset successfully",
        { w with users := w.users.map (fun v =>
            if v.name == u.name then
              { v with
                  password := p, reset_password_key := none }
            else v) }) := by
    unfold reset_password
    rw [if_neg (not_or.mpr ⟨ht, hp0⟩), if_neg (by omega), hfind]
  refine ⟨_, hcall1, ?_, ?_, ?_⟩
  · refine ⟨{ u with password := p, reset_password_key := none }, ?_,
      rfl, rfl, rfl⟩
    have hmem := List.mem_of_find?_eq_some hfind
    have : (fun v => if v.name == u.name then
        { v with password := p, reset_password_key := none } else v) u
        = { u with password := p, reset_password_key := none } := by
      simp
    rw [← this]
    exact List.mem_map_of_mem _ hmem
  · intro p2 hp2
    have hp20 : p2 ≠ "" := by
      intro h
      rw [h] at hp2
      simp at hp2
    unfold reset_password
    rw [if_neg (not_or.mpr ⟨ht, hp20⟩), if_neg (by omega)]
    have hnone : (w.users.map (fun v =>
        if v.name == u.name then
          { v with password := p, reset_password_key := none }
        else v)).find? (fun v => v.reset_password_key == some t)
        = none := by
      rw [List.find?_eq_none]
      intro v hv
      rw [List.mem_map] at hv
      rcases hv with ⟨v0, hv0, rfl⟩
      by_cases hn : v0.name = u.name
      · simp [hn]
      · have hb : (v0.name == u.name) = false := by simp [hn]
        simp only [hb, Bool.false_eq_true, if_false]
        intro hk
        rw [beq_iff_eq] at hk
        exact hn (huniq v0 hv0 hk)
    rw [hnone]
  · intro pshort hshort
    by_cases hps : pshort = ""
    · refine ⟨"Key and new password are required", ?_⟩
      unfold reset_password
      rw [if_pos (Or.inr hps)]
    · refine ⟨"Password must be at least 6 characters long", ?_⟩
      unfold reset_password
      rw [if_neg (not_or.mpr ⟨ht, hps⟩), if_pos hshort]

/-- Concrete account holding a reset token, used by the C6 witness. -/
def demoTokenUser : UserA :=
  { name := "guest@example.com", email := "guest@example.com",
    first_name := "Guest", last_name := "One", full_name := "Guest One",
    mobile_no := "111", enabled := true, user_type := "Website User",
    password := "oldpass", reset_password_key := some "tok-abc123",
    last_reset_password_key_generated_on := some 5, roles := ["Customer"] }

def demoTokenWorld : AuthWorld :=
  { users := [demoTokenUser], leads := [], leadCounter := 1,
    defaultCompany := "KRC" }

theorem c6_witness :
    ∃ w1, reset_password demoTokenWorld "tok-abc123" "newpass1"
        = (.ok "Password has been reset successfully", w1) ∧
      (∃ v ∈ w1.users, v.name = demoTokenUser.name ∧
        v.password = "newpass1" ∧ v.reset_password_key = none) ∧
      (∀ p2, 6 ≤ p2.length →
        reset_password w1 "tok-abc123" p2 = (.err invalidTokenMsg, w1)) ∧
      (∀ pshort, pshort.length < 6 →
        ∃ m, reset_password demoTokenWorld "tok-abc123" pshort
          = (.err m, demoTokenWorld)) :=
  c6_reset_token_single_use demoTokenWorld "tok-abc123" "newpass1"
    demoTokenUser (by decide) (by decide) (by decide)
    (by intro v hv hk; fin_cases hv; rfl)

/-! ### Guest Onboarding before_save validation
(guest_onboarding.py lines 7-23) -/

/-- The advisory late-checkout notice. -/
def lateCheckoutMsg : String :=
  "Checkout after 11 AM — 1 extra day will be charged."

/-- The blocking validation message for non-Indian passport holders. -/
def passportMandatoryMsg : String :=
  "For Non-Indian Guests, Passport and Visa details are mandatory when ID Proof Type is Passport."

/-- GuestOnboarding.before_save: when both check-in and check-out times are
set, parse them (an unparseable value aborts the save) and emit the advisory
late-checkout notice when check-out is strictly later than 11:00:00; then,
when the nationality is set and is not a recognized Indian designation
(case-insensitive "india"/"indian") and the identity-document type is
"Passport", require both passport and visa numbers, failing the save
otherwise. -/
def GuestOnboarding.before_save (go : GuestOnboarding) :
    Except String (List String) :=
  let timeStep : Except String (List String) :=
    if pyTruthy go.check_in_time && pyTruthy go.check_out_time then
      match parseTimeSec (go.check_in_time.getD ""),
          parseTimeSec (go.check_out_time.getD "") with
      | some _, some co =>
          .ok (if 11 * 3600 < co then [lateCheckoutMsg] else [])
      | _, _ => .error "time data does not match format HH:MM:SS"
    else .ok []
  match timeStep with
  | .error e => .error e
  | .ok notices =>
      if pyTruthy go.nationality
          && pyLower (go.nationality.getD "") != "india"
          && pyLower (go.nationality.getD "") != "indian" then
        if go.id_proof_type == some "Passport" then
          if !pyTruthy go.passport_number || !pyTruthy go.visa_number then
            .error passportMandatoryMsg
          else .ok notices
        else .ok notices
      else .ok notices

/-- A save of a Guest Onboarding: before_save validation runs first; on a
validation error the store is unchanged (no partial save); on success the
document is upserted and the notices are reported. -/
def saveGuestOnboarding (gos : List GuestOnboarding)
    (go : GuestOnboarding) :
    Except String (List String) × List GuestOnboarding :=
  match GuestOnboarding.before_save go with
  | .error e => (.error e, gos)
  | .ok ns =>
      (.ok ns,
        if gos.any (fun g => g.name == go.name) then
          gos.map (fun g => if g.name == go.name then go else g)
        else gos ++ [go])

theorem before_save_nonindian_passport (go : GuestOnboarding)
    (natl : String) (hci : pyTruthy go.check_in_time = false)
    (hnat : go.nationality = some natl) (hne : natl ≠ "")
    (hni1 : pyLower natl ≠ "india") (hni2 : pyLower natl ≠ "indian")
    (hpt : go.id_proof_type = some "Passport") :
    GuestOnboarding.before_save go
      = (if !pyTruthy go.passport_number || !pyTruthy go.visa_number then
          .error passportMandatoryMsg
        else .ok []) := by
  unfold GuestOnboarding.before_save
  simp only [hci, Bool.false_and, Bool.false_eq_true, if_false]
  have hb : (pyTruthy go.nationality
      && pyLower (go.nationality.getD "") != "india"
      && pyLower (go.nationality.getD "") != "indian") = true := by
    rw [hnat]
    simp [pyTruthy, hne, hni1, hni2]
  rw [if_pos hb, if_pos (by simp [hpt])]

/-- C8: for a record with no check-in/check-out times, a set non-Indian
nationality and identity-document type "Passport", the save fails with the
blocking passport/visa validation error — leaving the store unchanged —
exactly when the passport number or the visa number is missing; a record
with Indian nationality saves successfully without them, as does any record
whose identity-document type is not "Passport". -/
theorem c8_passport_visa_required :
    (∀ (gos : List GuestOnboarding) (go : GuestOnboarding) (natl : String),
      pyTruthy go.check_in_time = false →
      go.nationality = some natl → natl ≠ "" →
      pyLower natl ≠ "india" → pyLower natl ≠ "indian" →
      go.id_proof_type = some "Passport" →
      (saveGuestOnboarding gos go = (.error passportMandatoryMsg, gos)
        ↔ (pyTruthy go.passport_number = false ∨
            pyTruthy go.visa_number = false))) ∧
    (∀ (gos : List GuestOnboarding) (go : GuestOnboarding) (natl : String),
      pyTruthy go.check_in_time = false →
      go.nationality = some natl →
      (pyLower natl = "india" ∨ pyLower natl = "indian") →
      ∃ ns gos1, saveGuestOnboarding gos go = (.ok ns, gos1) ∧
        go ∈ gos1) ∧
    (∀ (gos : List GuestOnboarding) (go : GuestOnboarding),
      pyTruthy go.check_in_time = false →
      go.id_proof_type ≠ some "Passport" →
      ∃ ns gos1, saveGuestOnboarding gos go = (.ok ns, gos1) ∧
        go ∈ gos1) := by
  have hupsert : ∀ (gos : List GuestOnboarding) (go : GuestOnboarding),
      go ∈ (if gos.any (fun g => g.name == go.name) then
        gos.map (fun g => if g.name == go.name then go else g)
      else gos ++ [go]) := by
    intro gos go
    rcases ha : gos.any (fun g => g.name == go.name) with _ | _
    · simp only [Bool.false_eq_true, if_false]
      simp
    · simp only [if_true]
      rw [List.any_eq_true] at ha
      rcases ha with ⟨g, hg, hgn⟩
      rw [List.mem_map]
      exact ⟨g, hg, by simp [hgn]⟩
  refine ⟨?_, ?_, ?_⟩
  · intro gos go natl hci hnat hne hni1 hni2 hpt
    have heval := before_save_nonindian_passport go natl hci hnat hne
      hni1 hni2 hpt
    constructor
    · intro hsave
      by_cases hpv : (!pyTruthy go.passport_number
          || !pyTruthy go.visa_number) = true
      · rcases Bool.or_eq_true _ _ |>.mp hpv with h | h
        · exact Or.inl (by simpa using h)
        · exact Or.inr (by simpa using h)
      · exfalso
        rw [Bool.not_eq_true] at hpv
        rw [hpv] at heval
        simp only [Bool.false_eq_true, if_false] at heval
        unfold saveGuestOnboarding at hsave
        rw [heval] at hsave
        simp at hsave
    · intro hmiss
      have hpv : (!pyTruthy go.passport_number
          || !pyTruthy go.visa_number) = true := by
        rcases hmiss with h | h
        · simp [h]
        · simp [h]
      rw [hpv] at heval
      simp only [if_true] at heval
      unfold saveGuestOnboarding
      rw [heval]
  · intro gos go natl hci hnat hin
    have heval : GuestOnboarding.before_save go = .ok [] := by
      unfold GuestOnboarding.before_save
      simp only [hci, Bool.false_and, Bool.false_eq_true, if_false, hnat,
        Option.getD_some]
      rw [if_neg (by rcases hin with h | h <;> simp [h])]
    refine ⟨[], _, ?_, hupsert gos go⟩
    unfold saveGuestOnboarding
    rw [heval]
  · intro gos go hci hpt
    have hptb : (go.id_proof_type == some "Passport") = false := by
      simp [hpt]
    have heval : ∃ ns, GuestOnboarding.before_save go = .ok ns := by
      unfold GuestOnboarding.before_save
      simp only [hci, Bool.false_and, Bool.false_eq_true, if_false]
      by_cases hnb : (pyTruthy go.nationality
          && pyLower (go.nationality.getD "") != "india"
          && pyLower (go.nationality.getD "") != "indian") = true
      · rw [if_pos hnb, if_neg (by simp [hptb])]
        exact ⟨[], rfl⟩
      · rw [Bool.not_eq_true] at hnb
        rw [hnb]
        simp only [Bool.false_eq_true, if_false]
        exact ⟨[], rfl⟩
    rcases heval with ⟨ns, heval⟩
    refine ⟨ns, _, ?_, hupsert gos go⟩
    unfold saveGuestOnboarding
    rw [heval]

/-- Concrete onboardings used by the C8 witness. -/
def goFrancePassport : GuestOnboarding :=
  { name := "GO-0101", guest := "CUST-F", from_date := some ⟨2025, 11, 22⟩,
    to_date := some ⟨2025, 11, 24⟩, no_of_guests := 1,
    nationality := some "France", id_proof_type := some "Passport",
    id_proof_number := none, passport_number := none, visa_number := none,
    check_in_time := none, check_out_time := none, status := "Draft",
    docstatus := 0, reference_doctype := none, reference_name := none,
    user_photo := none, service_type := [], roommates := [], modified := 0 }

def goIndiaNoPassport : GuestOnboarding :=
  { goFrancePassport with
      name := "GO-0102", nationality := some "India" }

def goFranceAadhar : GuestOnboarding :=
  { goFrancePassport with
      name := "GO-0103", id_proof_type := some "Aadhar Card" }

theorem c8_witness :
    saveGuestOnboarding [] goFrancePassport
        = (.error passportMandatoryMsg, []) ∧
    (∃ ns gos1, saveGuestOnboarding [] goIndiaNoPassport
        = (.ok ns, gos1) ∧ goIndiaNoPassport ∈ gos1) ∧
    (∃ ns gos1, saveGuestOnboarding [] goFranceAadhar
        = (.ok ns, gos1) ∧ goFranceAadhar ∈ gos1) :=
  ⟨(c8_passport_visa_required.1 [] goFrancePassport "France" rfl rfl
      (by decide) (by decide) (by decide) rfl).mpr (Or.inl rfl),
    c8_passport_visa_required.2.1 [] goIndiaNoPassport "India" rfl rfl
      (Or.inl (by decide)),
    c8_passport_visa_required.2.2 [] goFranceAadhar rfl (by decide)⟩

/-! ### Booking and onboarding endpoints with the transaction layer
(api.py, create_service_booking and create_guest_onboarding)

Binary file storage (guest/roommate photo upload) is an external
collaborator excluded from the model; photo payload fields are carried but
their non-fatal upload side effects are not part of the store. -/

/-- A Customer record.  The booking endpoint also fills phone_no and
company; the onboarding endpoint leaves them unset (""). -/
structure CustomerB where
  name : String
  customer_name : String
  customer_type : String
  customer_group : String
  territory : String
  email_id : String
  mobile_no : String
  phone_no : String
  company : String
deriving DecidableEq, Repr

/-- A sellable Item. -/
structure ItemB where
  item_code : String
  item_name : String
  description : String
  standard_rate : Nat
  stock_uom : String
  uom : String
deriving DecidableEq, Repr

/-- A Price List head. -/
structure PriceListB where
  name : String
  selling : Bool
  enabled : Bool
deriving DecidableEq, Repr

/-- An Item Price row. -/
structure ItemPriceB where
  item_code : String
  price_list : String
  price_list_rate : Nat
deriving DecidableEq, Repr

/-- The address payload of create_service_booking. -/
structure AddressDataB where
  address_title : Option String
  address_type : Option String
  address_line1 : Option String
  address_line2 : Option String
  city : Option String
  state : Option String
  pincode : Option String
  country : Option String
  phone : Option String
  email_id : Option String
deriving DecidableEq, Repr

/-- A stored Address, linked to one Customer. -/
structure AddressB where
  name : String
  address_title : String
  address_type : String
  address_line1 : String
  address_line2 : String
  city : String
  state : String
  pincode : String
  country : String
  phone : String
  email_id : String
  link_name : String
deriving DecidableEq, Repr

/-- One line item of a booking Sales Order. -/
structure BookItemRow where
  item_code : String
  item_name : String
  description : String
  qty : Int
  rate : Nat
  uom : String
deriving DecidableEq, Repr

/-- A booking Sales Order (created in draft, never auto-submitted). -/
structure SalesOrderB where
  name : String
  customer : String
  transaction_date : Date
  delivery_date : Date
  items : List BookItemRow
  shipping_address_name : Option String
  comments : List String
deriving DecidableEq, Repr

/-- The store seen by the booking and onboarding endpoints. -/
structure WorldB where
  users : List UserA
  customers : List CustomerB
  items : List ItemB
  priceLists : List PriceListB
  itemPrices : List ItemPriceB
  addresses : List AddressB
  salesOrders : List SalesOrderB
  onboardings : List GuestOnboarding
  soCounter : Nat
  goCounter : Nat
  defaultCompany : String
deriving DecidableEq, Repr

/-- The framework transaction layer: `committed` is what survived the last
`frappe.db.commit()`, `current` is the open transaction state. -/
structure Tx where
  committed : WorldB
  current : WorldB
deriving DecidableEq, Repr

/-- `frappe.db.commit()`. -/
def commitTx (t : Tx) : Tx := ⟨t.current, t.current⟩

/-- `frappe.db.rollback()`: drop every write since the last commit. -/
def rollbackTx (t : Tx) : Tx := ⟨t.committed, t.committed⟩

/-- Identity resolution shared by the guest endpoints: a real session user
wins; otherwise the payload's user_email, falling back to email. -/
def resolveIdentity (sessionUser user_email email : Option String) :
    Option String :=
  if pyTruthy sessionUser && sessionUser != some "Guest" then sessionUser
  else pyOr user_email email

/-- The get-or-create name-collision loop: try base, then base-1, base-2,
... until a name is free (the candidate list is one longer than the taken
list, so a free name always exists). -/
def freshSuffixName (taken : List String) (base : String) : String :=
  ((base :: (List.range (taken.length + 1)).map
      (fun i => base ++ "-" ++ toString (i + 1))).find?
    (fun cand => !(taken.contains cand))).getD base

/-- `user.full_name or f"{first} {last}".strip() or "Customer"`. -/
def customerBaseName (user : UserA) : String :=
  if user.full_name != "" then user.full_name
  else if pyStrip (user.first_name ++ " " ++ user.last_name) != "" then
    pyStrip (user.first_name ++ " " ++ user.last_name)
  else "Customer"

/-- The booking endpoint's get-or-create Customer: find by email, else
insert a new Customer under a collision-suffixed name (no commit here). -/
def bookingCustomer (tx : Tx) (user : UserA) : String × Tx :=
  match tx.current.customers.find? (fun c => c.email_id == user.name) with
  | some c => (c.name, tx)
  | none =>
      let cname := freshSuffixName
        (tx.current.customers.map (fun c => c.name)) (customerBaseName user)
      let cust : CustomerB :=
        { name := cname, customer_name := cname,
          customer_type := "Individual", customer_group := "Individual",
          territory := "All Territories", email_id := user.name,
          mobile_no := user.mobile_no, phone_no := user.mobile_no,
          company := tx.current.defaultCompany }
      (cname, { tx with current :=
        { tx.current with customers := tx.current.customers ++ [cust] } })

/-- The onboarding endpoint's get-or-create Customer: same pattern, without
phone_no/company, and with an immediate `frappe.db.commit()` after the
insert. -/
def onboardingCustomer (tx : Tx) (user : UserA) : String × Tx :=
  match tx.current.customers.find? (fun c => c.email_id == user.name) with
  | some c => (c.name, tx)
  | none =>
      let cname := freshSuffixName
        (tx.current.customers.map (fun c => c.name)) (customerBaseName user)
      let cust : CustomerB :=
        { name := cname, customer_name := cname,
          customer_type := "Individual", customer_group := "Individual",
          territory := "All Territories", email_id := user.name,
          mobile_no := user.mobile_no, phone_no := "", company := "" }
      (cname, commitTx { tx with current :=
        { tx.current with customers := tx.current.customers ++ [cust] } })

/-- Effective rate of an item: its own standard rate when non-zero, else
the price found in the single enabled selling price list, else zero. -/
def resolveRate (w : WorldB) (it : ItemB) : Nat :=
  if it.standard_rate ≠ 0 then it.standard_rate
  else
    match w.priceLists.find? (fun pl => pl.selling && pl.enabled) with
    | none => 0
    | some pl =>
        match w.itemPrices.find? (fun ip =>
            ip.item_code == it.item_code && ip.price_list == pl.name) with
        | none => 0
        | some ip => if ip.price_list_rate ≠ 0 then ip.price_list_rate else 0

/-- Line UOM: stock_uom when set, else uom, else "Day". -/
def itemUom (it : ItemB) : String :=
  if it.stock_uom != "" then it.stock_uom
  else if it.uom != "" then it.uom
  else "Day"

/-- The per-item loop of create_service_booking: resolve each code (failing
on the first unknown one), compute the line description and total, and use
the computed stay length as the quantity of every line. -/
def buildSOItems (w : WorldB) (days : Int) (people : Nat)
    (fromS toS : String) :
    List String → Except String (List BookItemRow × Int)
  | [] => .ok ([], 0)
  | c :: rest =>
      match w.items.find? (fun it => it.item_code == c) with
      | none => .error ("Service item " ++ c ++ " not found")
      | some it =>
          let rate := resolveRate w it
          let descr := it.item_name ++ " for " ++ toString people
            ++ " Occupant" ++ (if 1 < people then "s" else "")
            ++ " from " ++ fromS ++ " till " ++ toS
          let row : BookItemRow :=
            { item_code := c, item_name := it.item_name,
              description := descr, qty := days, rate := rate,
              uom := itemUom it }
          match buildSOItems w days people fromS toS rest with
          | .error e => .error e
          | .ok (rows, total) => .ok (row :: rows, total + (rate : Int) * days)

/-- `YYYY-MM-DD` date rendering used inside the booking comment. -/
def formatYMD (d : Date) : String :=
  toString d.year ++ "-" ++ pad2 d.month ++ "-" ++ pad2 d.day

/-- One numbered line of the booking comment. -/
def bookingItemLine (w : WorldB) (idx : Nat) (code : String) : String :=
  let nm := match w.items.find? (fun it => it.item_code == code) with
    | some it => if it.item_name != "" then it.item_name else code
    | none => code
  "  " ++ toString idx ++ ". " ++ nm ++ " (" ++ code ++ ")\n"

/-- The numbered item lines of the booking comment. -/
def bookingItemLines (w : WorldB) : Nat → List String → String
  | _, [] => ""
  | idx, c :: rest =>
      bookingItemLine w idx c ++ bookingItemLines w (idx + 1) rest

/-- The booking-details comment appended to the created Sales Order. -/
def bookingComment (w : WorldB) (fd td : Date) (days : Int) (people : Nat)
    (codes : List String) (total : Int) : String :=
  "Service Booking Details:\n"
    ++ "From Date: " ++ formatYMD fd ++ "\n"
    ++ "To Date: " ++ formatYMD td ++ "\n"
    ++ "Number of Days: " ++ toString days ++ " day(s)\n"
    ++ "Number of People: " ++ toString people ++ "\n"
    ++ "Services Selected: " ++ toString codes.length ++ " service(s)\n"
    ++ bookingItemLines w 1 codes
    ++ "Total Amount: " ++ toString total ++ "\n"

/-- The optional Address creation of create_service_booking: an incomplete
payload (missing line 1, city, state or pincode) is silently skipped;
otherwise the Address is inserted, linked to the Customer, and committed
immediately (`frappe.db.commit()` right after the insert). -/
def createBookingAddress (tx : Tx) (ad? : Option AddressDataB)
    (customer_name ue : String) : Option String × Tx :=
  match ad? with
  | none => (none, tx)
  | some ad =>
      if !pyTruthy ad.address_line1 || !pyTruthy ad.city
          || !pyTruthy ad.state || !pyTruthy ad.pincode then (none, tx)
      else
        let atype := ad.address_type.getD "Shipping"
        let title := if pyTruthy ad.address_title then
            ad.address_title.getD ""
          else customer_name ++ "-" ++ atype
        let aname := title ++ "-" ++ atype
        let addr : AddressB :=
          { name := aname, address_title := title, address_type := atype,
            address_line1 := ad.address_line1.getD "",
            address_line2 := ad.address_line2.getD "",
            city := ad.city.getD "", state := ad.state.getD "",
            pincode := ad.pincode.getD "",
            country := ad.country.getD "India",
            phone := ad.phone.getD "", email_id := ad.email_id.getD ue,
            link_name := customer_name }
        (some aname, commitTx { tx with current :=
          { tx.current with addresses := tx.current.addresses ++ [addr] } })

/-- The booking payload. -/
structure BookingPayload where
  item_codes : List String
  item_code : Option String
  from_date : Option Date
  to_date : Option Date
  number_of_people : Option Nat
  user_email : Option String
  email : Option String
  address_data : Option AddressDataB
deriving DecidableEq, Repr

/-- The response of create_service_booking. -/
inductive BookResp where
  | ok (message sales_order customer : String)
  | err (error : String)
deriving DecidableEq, Repr

/-- The part of create_service_booking that runs after input validation:
resolve the identity to a User, get-or-create the Customer, optionally
create and commit the shipping Address, resolve and price every item (the
first unknown code aborts with a plain error return, with no rollback),
insert the draft Sales Order with the booking comment, and commit. -/
def bookingAfterValidation (tx : Tx) (codes : List String) (fd td : Date)
    (calculated_days : Int) (ppl : Nat) (sessionUser user_email email :
    Option String) (ad? : Option AddressDataB) (today : Date) :
    BookResp × Tx :=
  if !pyTruthy (resolveIdentity sessionUser user_email email) then
    (.err "Authentication required. Please log in to book a service.", tx)
  else
    let ue := (resolveIdentity sessionUser user_email email).getD ""
    match tx.current.users.find? (fun u => u.name == ue) with
    | none => (.err "User account not found. Please contact support.", tx)
    | some user =>
        let res := bookingCustomer tx user
        let res2 := createBookingAddress res.2 ad? res.1 ue
        match buildSOItems res2.2.current calculated_days ppl
            (formatDMY fd) (formatDMY td) codes with
        | .error m => (.err m, res2.2)
        | .ok (rows, total) =>
            let soName := "SAL-ORD-" ++ toString res2.2.current.soCounter
            let so : SalesOrderB :=
              { name := soName, customer := res.1,
                transaction_date := today, delivery_date := fd,
                items := rows, shipping_address_name := res2.1,
                comments := [bookingComment res2.2.current fd td
                  calculated_days ppl codes total] }
            (.ok "Service booking created successfully" soName res.1,
              commitTx { res2.2 with current :=
                { res2.2.current with
                    salesOrders := res2.2.current.salesOrders ++ [so],
                    soCounter := res2.2.current.soCounter + 1 } })

/-- create_service_booking (api.py lines 812-1160): gather the item codes
(single-code fallback), validate the required fields, validate
to_date >= from_date and compute the inclusive stay length floored at one,
then hand over to the post-validation flow. -/
def create_service_booking (tx : Tx) (p : BookingPayload)
    (sessionUser : Option String) (today : Date) : BookResp × Tx :=
  let codes := match p.item_codes with
    | [] =>
        match p.item_code with
        | some c => if c ≠ "" then [c] else []
        | none => []
    | cs => cs
  match codes with
  | [] => (.err "At least one service item is required", tx)
  | _ :: _ =>
      match p.from_date with
      | none => (.err "From Date is required", tx)
      | some fd =>
          match p.to_date with
          | none => (.err "To Date is required", tx)
          | some td =>
              match p.number_of_people with
              | none => (.err "Number Of People is required", tx)
              | some 0 => (.err "Number Of People is required", tx)
              | some ppl =>
                  if daysFromCivil td < daysFromCivil fd then
                    (.err "To Date must be after or equal to From Date", tx)
                  else
                    bookingAfterValidation tx codes fd td
                      (if dateDiff td fd + 1 < 1 then 1 else dateDiff td fd + 1)
                      ppl sessionUser p.user_email p.email p.address_data
                      today

/-- One entry of the onboarding payload's service selection. -/
structure ServiceEntry where
  service_type : Option String
  item_code : Option String
  rate : Nat
deriving DecidableEq, Repr

/-- One entry of the onboarding payload's roommates array. -/
structure RoommateEntry where
  guest : Option String
  service_type : Option String
  from_date : Option Date
  to_date : Option Date
  no_of_guests : Option Nat
  nationality : Option String
  id_proof_type : Option String
  id_proof_number : Option String
  user_photo : Option String
  user_photo_filename : Option String
deriving DecidableEq, Repr

/-- The onboarding payload. -/
structure OnbPayload where
  user_email : Option String
  email : Option String
  from_date : Option Date
  to_date : Option Date
  no_of_guests : Option Nat
  nationality : Option String
  id_proof_type : Option String
  id_proof_number : Option String
  passport_number : Option String
  visa_number : Option String
  service_type : List ServiceEntry
  roommates : List RoommateEntry
  user_photo : Option String
  user_photo_filename : Option String
deriving DecidableEq, Repr

/-- The response of create_guest_onboarding. -/
inductive OnbResp where
  | ok (message guest_onboarding : String)
  | err (error : String)
deriving DecidableEq, Repr

/-- The service child rows: `service_type or item_code`, skipping falsy
codes. -/
def serviceRows (entries : List ServiceEntry) : List ServiceRow :=
  entries.filterMap (fun s =>
    let code := pyOr s.service_type s.item_code
    if !pyTruthy code then none
    else some { service_type := code.getD "", rate := s.rate })

/-- The roommate child rows (photo upload is the external file store). -/
def roommateRows (entries : List RoommateEntry) : List RoommateRow :=
  entries.map (fun r =>
    { guest := r.guest, service_type := r.service_type,
      from_date := r.from_date, to_date := r.to_date,
      no_of_guests := r.no_of_guests, nationality := r.nationality,
      id_proof_type := r.id_proof_type,
      id_proof_number := r.id_proof_number, user_photo := none })

/-- create_guest_onboarding (api.py lines 595-810): resolve the identity to
a User, get-or-create the Customer (with an immediate commit after a fresh
insert), only then validate the required stay fields (a failure here is a
plain error return: nothing is rolled back), build the onboarding document
with its child tables and blank check-in/check-out times, insert it (which
runs before_save validation; a validation error rolls the open transaction
back), and commit. -/
def create_guest_onboarding (tx : Tx) (p : OnbPayload)
    (sessionUser : Option String) : OnbResp × Tx :=
  if !pyTruthy (resolveIdentity sessionUser p.user_email p.email) then
    (.err "Authentication required. Please log in to continue.", tx)
  else
    let ue := (resolveIdentity sessionUser p.user_email p.email).getD ""
    match tx.current.users.find? (fun u => u.name == ue) with
    | none => (.err "User not found. Please contact support.", tx)
    | some user =>
        let res := onboardingCustomer tx user
        match p.from_date with
        | none => (.err "From Date is required", res.2)
        | some fd =>
            match p.to_date with
            | none => (.err "To Date is required", res.2)
            | some td =>
                match p.no_of_guests with
                | none => (.err "No Of Guests is required", res.2)
                | some 0 => (.err "No Of Guests is required", res.2)
                | some ng =>
                    if !pyTruthy p.nationality then
                      (.err "Nationality is required", res.2)
                    else
                      let goName := "GO-" ++ toString res.2.current.goCounter
                      let go : GuestOnboarding :=
                        { name := goName, guest := res.1,
                          from_date := some fd, to_date := some td,
                          no_of_guests := ng,
                          nationality := p.nationality,
                          id_proof_type := p.id_proof_type,
                          id_proof_number := p.id_proof_number,
                          passport_number := p.passport_number,
                          visa_number := p.visa_number,
                          check_in_time := none, check_out_time := none,
                          status := "Draft", docstatus := 0,
                          reference_doctype := none,
                          reference_name := none, user_photo := none,
                          service_type := serviceRows p.service_type,
                          roommates := roommateRows p.roommates,
                          modified := 0 }
                      match GuestOnboarding.before_save go with
                      | .error e => (.err e, rollbackTx res.2)
                      | .ok _ =>
                          (.ok "Guest onboarding created successfully"
                              goName,
                            commitTx { res.2 with current :=
                              { res.2.current with
                                  onboardings :=
                                    res.2.current.onboardings ++ [go],
                                  goCounter :=
                                    res.2.current.goCounter + 1 } })

theorem resolveIdentity_session (ue : String) (a b : Option String)
    (h1 : ue ≠ "") (h2 : ue ≠ "Guest") :
    resolveIdentity (some ue) a b = some ue := by
  unfold resolveIdentity
  rw [if_pos (by simp [pyTruthy, h1, h2])]

theorem bookingCustomer_pres (tx : Tx) (user : UserA) :
    (bookingCustomer tx user).2.current.users = tx.current.users ∧
    (bookingCustomer tx user).2.current.items = tx.current.items ∧
    (bookingCustomer tx user).2.current.priceLists
      = tx.current.priceLists ∧
    (bookingCustomer tx user).2.current.itemPrices
      = tx.current.itemPrices ∧
    (bookingCustomer tx user).2.current.salesOrders
      = tx.current.salesOrders ∧
    (bookingCustomer tx user).2.current.soCounter
      = tx.current.soCounter ∧
    (bookingCustomer tx user).2.committed = tx.committed ∧
    (bookingCustomer tx user).2.current.addresses
      = tx.current.addresses := by
  rcases hr : tx.current.customers.find? (fun c => c.email_id == user.name)
      with _ | c <;>
    simp [bookingCustomer, hr]

theorem buildSOItems_ok (w : WorldB) (days : Int) (people : Nat)
    (fS tS : String) :
    ∀ codes : List String,
    (∀ c ∈ codes, (w.items.find? (fun it => it.item_code == c)).isSome) →
    ∃ rows total,
      buildSOItems w days people fS tS codes = .ok (rows, total) ∧
      rows.length = codes.length ∧ ∀ r ∈ rows, r.qty = days := by
  intro codes
  induction codes with
  | nil =>
    intro _
    exact ⟨[], 0, rfl, rfl, by intro r hr; exact absurd hr (by simp)⟩
  | cons c rest ih =>
    intro hall
    have hc := hall c (by simp)
    rcases hfind : w.items.find? (fun it => it.item_code == c)
        with _ | it
    · rw [hfind] at hc
      simp at hc
    · rcases ih (fun c2 h2 => hall c2 (by simp [h2]))
        with ⟨rows, total, heq, hlen, hq⟩
      refine ⟨BookItemRow.mk c it.item_name
          (it.item_name ++ " for " ++ toString people ++ " Occupant"
            ++ (if 1 < people then "s" else "") ++ " from " ++ fS
            ++ " till " ++ tS)
          days (resolveRate w it) (itemUom it) :: rows,
        total + (resolveRate w it : Int) * days, ?_, ?_, ?_⟩
      · simp only [buildSOItems]
        rw [hfind, heq]
      · simpa using hlen
      · intro r hr
        rcases List.mem_cons.mp hr with rfl | hr2
        · rfl
        · exact hq r hr2

theorem csb_valid_eval (tx : Tx) (p : BookingPayload)
    (sessionUser : Option String) (today : Date) (fd td : Date)
    (ppl : Nat) (c0 : String) (cs : List String)
    (hcodes : p.item_codes = c0 :: cs)
    (hfd : p.from_date = some fd) (htd : p.to_date = some td)
    (hppl : p.number_of_people = some ppl) (hppl0 : ppl ≠ 0)
    (hdate : ¬ daysFromCivil td < daysFromCivil fd) :
    create_service_booking tx p sessionUser today
      = bookingAfterValidation tx (c0 :: cs) fd td
          (if dateDiff td fd + 1 < 1 then 1 else dateDiff td fd + 1) ppl
          sessionUser p.user_email p.email p.address_data today := by
  obtain ⟨n, rfl⟩ : ∃ n, ppl = n + 1 := ⟨ppl - 1, by omega⟩
  unfold create_service_booking
  rw [hcodes, hfd, htd, hppl]
  simp only []
  rw [if_neg hdate]

/-- C9: with a non-empty item list, both dates present and to_date not
before from_date, a resolvable authenticated identity and resolvable items,
create_service_booking succeeds with a committed draft Sales Order whose
delivery date is from_date, whose line items correspond one-to-one to the
requested codes, and every line quantity equals
stay_length_days = (to_date - from_date) + 1 (inclusive both ends, which is
at least 1, so the floor at 1 never lowers it); with to_date strictly
before from_date the call fails validation with no change to the store. -/
theorem c9_stay_length_qty :
    (∀ (tx : Tx) (p : BookingPayload) (ue : String) (today fd td : Date)
        (ppl : Nat) (user : UserA),
      p.item_codes ≠ [] →
      p.from_date = some fd → p.to_date = some td →
      p.number_of_people = some ppl → ppl ≠ 0 →
      ¬ daysFromCivil td < daysFromCivil fd →
      ue ≠ "" → ue ≠ "Guest" →
      tx.current.users.find? (fun u => u.name == ue) = some user →
      p.address_data = none →
      (∀ c ∈ p.item_codes,
        (tx.current.items.find? (fun it => it.item_code == c)).isSome) →
      1 ≤ dateDiff td fd + 1 ∧
      ∃ tx1 so,
        create_service_booking tx p (some ue) today
          = (.ok "Service booking created successfully" so.name
              so.customer, tx1) ∧
        tx1.current.salesOrders.getLast? = some so ∧
        tx1.committed = tx1.current ∧
        so.delivery_date = fd ∧
        so.items.length = p.item_codes.length ∧
        so.items ≠ [] ∧
        (∀ r ∈ so.items, r.qty = dateDiff td fd + 1)) ∧
    (∀ (tx : Tx) (p : BookingPayload) (sess : Option String)
        (today fd td : Date) (ppl : Nat),
      p.item_codes ≠ [] →
      p.from_date = some fd → p.to_date = some td →
      p.number_of_people = some ppl → ppl ≠ 0 →
      daysFromCivil td < daysFromCivil fd →
      create_service_booking tx p sess today
        = (.err "To Date must be after or equal to From Date", tx)) := by
  constructor
  · intro tx p ue today fd td ppl user hne0 hfd htd hppl hppl0 hdate hue
      hug huser had hitems
    rcases hcodes : p.item_codes with _ | ⟨c0, cs⟩
    · exact absurd hcodes hne0
    have hd1 : (1 : Int) ≤ dateDiff td fd + 1 := by
      have hle : daysFromCivil fd ≤ daysFromCivil td := not_lt.mp hdate
      unfold dateDiff
      omega
    have hdays : (if dateDiff td fd + 1 < 1 then 1
        else dateDiff td fd + 1) = dateDiff td fd + 1 := by
      rw [if_neg (by omega)]
    refine ⟨hd1, ?_⟩
    rw [csb_valid_eval tx p (some ue) today fd td ppl c0 cs hcodes hfd htd
      hppl hppl0 hdate]
    rw [hdays]
    unfold bookingAfterValidation
    rw [resolveIdentity_session ue p.user_email p.email hue hug]
    rw [if_neg (by simp [pyTruthy, hue])]
    simp only [Option.getD_some]
    rw [huser]
    have hpres := bookingCustomer_pres tx user
    have hitems2 : ∀ c ∈ (c0 :: cs),
        (((bookingCustomer tx user).2.current.items).find?
          (fun it => it.item_code == c)).isSome := by
      rw [hpres.2.1]
      intro c hcmem
      have := hitems c (by rw [hcodes]; exact hcmem)
      exact this
    rw [had]
    simp only [createBookingAddress]
    rcases buildSOItems_ok (bookingCustomer tx user).2.current
        (dateDiff td fd + 1) ppl (formatDMY fd) (formatDMY td) (c0 :: cs)
        hitems2 with ⟨rows, total, hbuild, hlen, hq⟩
    rw [hbuild]
    refine ⟨_, SalesOrderB.mk
        ("SAL-ORD-" ++ toString (bookingCustomer tx user).2.current.soCounter)
        (bookingCustomer tx user).1 today fd rows none
        [bookingComment (bookingCustomer tx user).2.current fd td
          (dateDiff td fd + 1) ppl (c0 :: cs) total],
      rfl, ?_, rfl, rfl, ?_, ?_, ?_⟩
    · simp only [commitTx]
      exact List.getLast?_concat _
    · exact hlen
    · intro hnil
      simp only [] at hnil
      rw [hnil] at hlen
      simp at hlen
    · intro r hr
      exact hq r hr
  · intro tx p sess today fd td ppl hne0 hfd htd hppl hppl0 hlt
    rcases hcodes : p.item_codes with _ | ⟨c0, cs⟩
    · exact absurd hcodes hne0
    obtain ⟨n, rfl⟩ : ∃ n, ppl = n + 1 := ⟨ppl - 1, by omega⟩
    unfold create_service_booking
    rw [hcodes, hfd, htd, hppl]
    simp only []
    rw [if_pos hlt]

/-- Concrete booking world used by the C9 and C4 witnesses. -/
def demoBookUser : UserA :=
  { name := "guest@example.com", email := "guest@example.com",
    first_name := "Guest", last_name := "One", full_name := "Guest One",
    mobile_no := "111", enabled := true, user_type := "Website User",
    password := "secret1", reset_password_key := none,
    last_reset_password_key_generated_on := none, roles := ["Customer"] }

def demoItemRoom : ItemB :=
  { item_code := "ROOM", item_name := "Double Room", description := "",
    standard_rate := 100, stock_uom := "Day", uom := "" }

def demoWorldB : WorldB :=
  { users := [demoBookUser], customers := [], items := [demoItemRoom],
    priceLists := [], itemPrices := [], addresses := [], salesOrders := [],
    onboardings := [], soCounter := 0, goCounter := 0,
    defaultCompany := "KRC" }

def demoTxB : Tx := ⟨demoWorldB, demoWorldB⟩

def demoBookingPayload : BookingPayload :=
  { item_codes := ["ROOM"], item_code := none,
    from_date := some ⟨2025, 11, 22⟩, to_date := some ⟨2025, 11, 24⟩,
    number_of_people := some 2, user_email := none, email := none,
    address_data := none }

def demoBookingPayloadBad : BookingPayload :=
  { demoBookingPayload with
      from_date := some ⟨2025, 11, 24⟩, to_date := some ⟨2025, 11, 22⟩ }

theorem c9_witness :
    (1 ≤ dateDiff ⟨2025, 11, 24⟩ ⟨2025, 11, 22⟩ + 1 ∧
      ∃ tx1 so,
        create_service_booking demoTxB demoBookingPayload
            (some "guest@example.com") ⟨2025, 11, 20⟩
          = (.ok "Service booking created successfully" so.name
              so.customer, tx1) ∧
        tx1.current.salesOrders.getLast? = some so ∧
        tx1.committed = tx1.current ∧
        so.delivery_date = ⟨2025, 11, 22⟩ ∧
        so.items.length = demoBookingPayload.item_codes.length ∧
        so.items ≠ [] ∧
        (∀ r ∈ so.items,
          r.qty = dateDiff ⟨2025, 11, 24⟩ ⟨2025, 11, 22⟩ + 1)) ∧
    dateDiff ⟨2025, 11, 24⟩ ⟨2025, 11, 22⟩ + 1 = 3 ∧
    dateDiff ⟨2025, 11, 22⟩ ⟨2025, 11, 22⟩ + 1 = 1 ∧
    create_service_booking demoTxB demoBookingPayloadBad
        (some "guest@example.com") ⟨2025, 11, 20⟩
      = (.err "To Date must be after or equal to From Date", demoTxB) :=
  ⟨c9_stay_length_qty.1 demoTxB demoBookingPayload "guest@example.com"
      ⟨2025, 11, 20⟩ ⟨2025, 11, 22⟩ ⟨2025, 11, 24⟩ 2 demoBookUser
      (by decide) rfl rfl rfl (by decide) (by decide) (by decide)
      (by decide) (by decide) rfl (by decide),
    by decide, by decide,
    c9_stay_length_qty.2 demoTxB demoBookingPayloadBad
      (some "guest@example.com") ⟨2025, 11, 20⟩ ⟨2025, 11, 24⟩
      ⟨2025, 11, 22⟩ 2 (by decide) rfl rfl rfl (by decide) (by decide)⟩

theorem pyOr_truthy (ue : String) (b : Option String) (h : ue ≠ "") :
    pyOr (some ue) b = some ue := by
  simp [pyOr, pyTruthy, h]

theorem resolveIdentity_none (a b : Option String) :
    resolveIdentity none a b = pyOr a b := by
  simp [resolveIdentity, pyTruthy]

theorem onboardingCustomer_fresh (tx : Tx) (user : UserA)
    (hf : tx.current.customers.find? (fun c => c.email_id == user.name)
      = none) :
    ∃ cn cust, onboardingCustomer tx user
        = (cn, commitTx { tx with current := { tx.current with
            customers := tx.current.customers ++ [cust] } }) ∧
      cust.email_id = user.name := by
  unfold onboardingCustomer
  rw [hf]
  exact ⟨_, _, rfl, rfl⟩

theorem createBookingAddress_complete (tx : Tx) (ad : AddressDataB)
    (cn ue : String)
    (h1 : pyTruthy ad.address_line1 = true) (h2 : pyTruthy ad.city = true)
    (h3 : pyTruthy ad.state = true) (h4 : pyTruthy ad.pincode = true) :
    ∃ aname addr, createBookingAddress tx (some ad) cn ue
      = (some aname, commitTx { tx with current := { tx.current with
          addresses := tx.current.addresses ++ [addr] } }) := by
  simp only [createBookingAddress]
  rw [if_neg (by simp [h1, h2, h3, h4])]
  exact ⟨_, _, rfl⟩

/-- Concrete onboarding payload missing to_date, used against C4. -/
def demoOnbPayloadNoTo : OnbPayload :=
  { user_email := some "guest@example.com", email := none,
    from_date := some ⟨2025, 11, 22⟩, to_date := none,
    no_of_guests := some 2, nationality := some "India",
    id_proof_type := none, id_proof_number := none,
    passport_number := none, visa_number := none, service_type := [],
    roommates := [], user_photo := none, user_photo_filename := none }

/-- C4 counterexample: create_guest_onboarding fails required-field
validation (missing to_date) after creating and committing a new Customer;
the call returns an error yet the Customer remains observable in the
committed store — the operation is not all-or-nothing. -/
theorem c4_counterexample :
    (create_guest_onboarding demoTxB demoOnbPayloadNoTo none).1
        = OnbResp.err "To Date is required" ∧
    (create_guest_onboarding demoTxB
        demoOnbPayloadNoTo none).2.committed.customers ≠ [] := by
  constructor
  · rfl
  · decide

/-- C4 (amended): rollback is bounded by the explicit mid-operation
commits.  create_guest_onboarding commits the freshly created Customer
before required-field validation, so when that validation fails the
Customer persists in the committed store (only the onboarding itself is
absent); create_service_booking commits the Address (together with the
pending Customer) before resolving items, so when an item code fails to
resolve the Address persists while no Sales Order is created. -/
theorem c4_commit_bounds_rollback :
    (∀ (tx : Tx) (p : OnbPayload) (ue : String) (user : UserA) (fd : Date),
      tx.current = tx.committed →
      p.user_email = some ue → ue ≠ "" →
      tx.current.users.find? (fun u => u.name == ue) = some user →
      tx.current.customers.find? (fun c => c.email_id == user.name)
        = none →
      p.from_date = some fd → p.to_date = none →
      ∃ tx1, create_guest_onboarding tx p none
          = (.err "To Date is required", tx1) ∧
        (∃ c ∈ tx1.committed.customers, c.email_id = ue) ∧
        tx1.committed.onboardings = tx.committed.onboardings) ∧
    (∀ (tx : Tx) (p : BookingPayload) (ue : String) (today fd td : Date)
        (ppl : Nat) (user : UserA) (ad : AddressDataB) (c0 : String)
        (cs : List String),
      p.item_codes = c0 :: cs →
      p.from_date = some fd → p.to_date = some td →
      p.number_of_people = some ppl → ppl ≠ 0 →
      ¬ daysFromCivil td < daysFromCivil fd →
      ue ≠ "" → ue ≠ "Guest" →
      tx.current.users.find? (fun u => u.name == ue) = some user →
      p.address_data = some ad →
      pyTruthy ad.address_line1 = true → pyTruthy ad.city = true →
      pyTruthy ad.state = true → pyTruthy ad.pincode = true →
      tx.current.items.find? (fun it => it.item_code == c0) = none →
      ∃ tx1, create_service_booking tx p (some ue) today
          = (.err ("Service item " ++ c0 ++ " not found"), tx1) ∧
        tx1.committed.addresses.length
          = tx.current.addresses.length + 1 ∧
        tx1.committed.salesOrders = tx.current.salesOrders) := by
  constructor
  · intro tx p ue user fd hclean hupe hue huser hcust hfd htd
    have hname : user.name = ue := by
      have := List.find?_some huser
      rwa [beq_iff_eq] at this
    unfold create_guest_onboarding
    rw [resolveIdentity_none, hupe, pyOr_truthy ue p.email hue]
    rw [if_neg (by simp [pyTruthy, hue])]
    simp only [Option.getD_some]
    rw [huser]
    simp only []
    rcases onboardingCustomer_fresh tx user hcust with ⟨cn, cust, honb, hce⟩
    rw [honb]
    simp only [hfd, htd]
    refine ⟨_, rfl, ⟨cust, ?_, by rw [hce, hname]⟩, ?_⟩
    · simp only [commitTx]
      simp
    · simp only [commitTx]
      rw [hclean]
  · intro tx p ue today fd td ppl user ad c0 cs hcodes hfd htd hppl hppl0
      hdate hue hug huser had h1 h2 h3 h4 hmiss
    rw [csb_valid_eval tx p (some ue) today fd td ppl c0 cs hcodes hfd htd
      hppl hppl0 hdate]
    unfold bookingAfterValidation
    rw [resolveIdentity_session ue p.user_email p.email hue hug]
    rw [if_neg (by simp [pyTruthy, hue])]
    simp only [Option.getD_some]
    rw [huser]
    simp only []
    rw [had]
    rcases createBookingAddress_complete (bookingCustomer tx user).2 ad
        (bookingCustomer tx user).1 ue h1 h2 h3 h4
      with ⟨aname, addr, haddr⟩
    rw [haddr]
    have hpres := bookingCustomer_pres tx user
    have hitems_eq : (commitTx { (bookingCustomer tx user).2 with
        current := { (bookingCustomer tx user).2.current with
          addresses := (bookingCustomer tx user).2.current.addresses
            ++ [addr] } }).current.items = tx.current.items := by
      simp only [commitTx]
      exact hpres.2.1
    simp only [buildSOItems]
    rw [hitems_eq, hmiss]
    refine ⟨_, rfl, ?_, ?_⟩
    · simp only [commitTx, List.length_append]
      rw [hpres.2.2.2.2.2.2.2]
      rfl
    · simp only [commitTx]
      exact hpres.2.2.2.2.1

/-- Complete address payload used by the C4 witness. -/
def demoAddrData : AddressDataB :=
  { address_title := none, address_type := none,
    address_line1 := some "1 Main St", address_line2 := none,
    city := some "Pune", state := some "MH", pincode := some "411001",
    country := none, phone := none, email_id := none }

/-- Booking payload whose only item code does not resolve, with a complete
address payload. -/
def demoBookingPayloadAddr : BookingPayload :=
  { item_codes := ["SPA"], item_code := none,
    from_date := some ⟨2025, 11, 22⟩, to_date := some ⟨2025, 11, 24⟩,
    number_of_people := some 2, user_email := none, email := none,
    address_data := some demoAddrData }

theorem c4_witness :
    (∃ tx1, create_guest_onboarding demoTxB demoOnbPayloadNoTo none
        = (.err "To Date is required", tx1) ∧
      (∃ c ∈ tx1.committed.customers,
        c.email_id = "guest@example.com") ∧
      tx1.committed.onboardings = demoTxB.committed.onboardings) ∧
    (∃ tx1, create_service_booking demoTxB demoBookingPayloadAddr
          (some "guest@example.com") ⟨2025, 11, 20⟩
        = (.err ("Service item " ++ "SPA" ++ " not found"), tx1) ∧
      tx1.committed.addresses.length
        = demoTxB.current.addresses.length + 1 ∧
      tx1.committed.salesOrders = demoTxB.current.salesOrders) :=
  ⟨c4_commit_bounds_rollback.1 demoTxB demoOnbPayloadNoTo
      "guest@example.com" demoBookUser ⟨2025, 11, 22⟩ rfl rfl (by decide)
      rfl rfl rfl rfl,
    c4_commit_bounds_rollback.2 demoTxB demoBookingPayloadAddr
      "guest@example.com" ⟨2025, 11, 20⟩ ⟨2025, 11, 22⟩ ⟨2025, 11, 24⟩ 2
      demoBookUser demoAddrData "SPA" [] rfl rfl rfl rfl (by decide)
      (by decide) (by decide) (by decide) rfl rfl (by decide) (by decide)
      (by decide) (by decide) rfl⟩

end KRC
